import Mathlib

/-!
Shallow embedding of the payroll / payment-settlement subsystem of the
workconnect backend (apps `payments` and `contracts`), together with proofs
about its specified properties.

The embedding follows the Python source:
  * `payments/models.py` — entity records and their status enumerations;
  * `payments/services/payment_gateway.py` — gateway adapters
    (`MTNMobileMoney`, `AirtelMoney`, `FlutterwaveGateway`) and the shared
    `_create_transaction_record` helper;
  * `payments/service.py` — `FeeCalculator`, `PaymentWorkflow`, and the
    scheduled tasks (`generate_monthly_invoices`, `disburse_worker_salaries`,
    `poll_payment_status`, `schedule_worker_payment`);
  * `payments/webhooks.py` — the three webhook handlers;
  * `payments/views.py` — the guarded endpoints that delegate to the above;
  * `contracts/services/fee_calculator.py` — the second `FeeCalculator`.

Databases are modelled as lists of records; Django `objects.filter(...).first()`
becomes `List.find?`, `objects.create` an append guarded by the declared unique
constraints, and `instance.save()` a first-match in-place update (a row is
identified by its unique reference field, standing in for the primary key).
External HTTP providers are modelled by a `ProviderEnv` describing how the
provider answered.  Python-level run-time failures that the source can actually
raise (`ValueError`, `AttributeError` on a missing enum member, `NameError` on a
name that is never imported, `IntegrityError` on a unique-index violation) are
made explicit through the `PyError` type: each state-changing operation returns
`Except PyError result` paired with the database as it stands when the
operation returns or when the exception escapes.
-/

deriving instance DecidableEq for Except

namespace WorkConnect

/-- Python-level exceptions that the modelled code can raise. -/
inductive PyError where
  | valueError (msg : String)
  | attributeError (msg : String)
  | nameError (msg : String)
  | typeError (msg : String)
  | keyError (msg : String)
  | indexError (msg : String)
  | notImplementedError (msg : String)
  | integrityError (msg : String)
deriving DecidableEq

/-- `EmployerInvoice.InvoiceStatus` (payments/models.py). -/
inductive InvoiceStatus where
  | pending | paid | overdue | cancelled
deriving DecidableEq

/-- `WorkerPayment.PaymentStatus` (payments/models.py). -/
inductive PaymentStatus where
  | pending | processing | completed | failed | refunded
deriving DecidableEq

/-- `PaymentTransaction.TransactionStatus` (payments/models.py).
Note that this enumeration has no `COMPLETED` member: the webhook handlers and
the poller refer to `PaymentTransaction.TransactionStatus.COMPLETED`, which is
an `AttributeError` at run time. -/
inductive TransactionStatus where
  | initiated | pending | successful | failed | cancelled
deriving DecidableEq

/-- `PaymentTransaction.TransactionType` (payments/models.py). -/
inductive TransactionType where
  | employer_payment | worker_disbursement | refund
deriving DecidableEq

/-- `WorkerPaymentMethod.PaymentMethodType` (payments/models.py). -/
inductive PaymentMethodType where
  | mobile_money_mtn | mobile_money_airtel | bank_transfer | cash_pickup
deriving DecidableEq

/-- `ServiceFeeConfig.FeeCalculationType` (payments/models.py). -/
inductive FeeCalculationType where
  | fixed_amount | percentage | tiered
deriving DecidableEq

/-- A calendar date as Python's `datetime.date`. -/
structure PyDate where
  year : Nat
  month : Nat
  day : Nat
deriving DecidableEq

/-- `a <= b` on dates (used for `effective_from__lte` and `start_date__lte`). -/
def PyDate.ble (a b : PyDate) : Bool :=
  decide (a.year < b.year ∨
    (a.year = b.year ∧ (a.month < b.month ∨ (a.month = b.month ∧ a.day ≤ b.day))))

/-- The employer's `User` row, restricted to the fields the payment workflow
reads.  An absent email is the empty string (Python truthiness). -/
structure EmployerUser where
  phone : String
  email : String
  first_name : String
  last_name : String
deriving DecidableEq

/-- One band of `ServiceFeeConfig.tier_config` (a JSON object; every key may be
missing, hence `Option`). -/
structure FeeTier where
  tmin : Option Int
  tmax : Option Int
  tfee : Option Int
deriving DecidableEq

/-- `ServiceFeeConfig` (payments/models.py).  `percentage100` is the
`DecimalField(5, 2)` `percentage` scaled by 100, so that the exact decimal
arithmetic of the source can be carried out over `Int`. -/
structure ServiceFeeConfig where
  category_id : Nat
  fee_type : FeeCalculationType
  fixed_amount : Option Int
  percentage100 : Option Int
  tier_config : Option (List FeeTier)
  minimum_fee : Option Int
  maximum_fee : Option Int
  is_active : Bool
  effective_from : PyDate
deriving DecidableEq

/-- A `Contract` row, restricted to the fields the payroll tasks read.
`id_hex` is `contract.id.hex`. -/
structure Contract where
  id_hex : String
  status : String
  start_date : PyDate
  worker_salary_amount : Int
  category_id : Nat
  employer : EmployerUser
  worker_id : String
deriving DecidableEq

/-- `PayrollCycle` (payments/models.py).  The three `*_date` timestamps are
modelled as set/unset flags. -/
structure PayrollCycle where
  month : Nat
  year : Nat
  total_contracts : Int
  total_worker_salaries : Int
  total_service_fees : Int
  total_revenue : Int
  invoices_generated : Bool
  payments_processed : Bool
  cycle_closed : Bool
  invoice_generation_date_set : Bool
  payment_processing_date_set : Bool
deriving DecidableEq

/-- `EmployerInvoice` (payments/models.py), keyed by its unique
`invoice_number`; the payroll-cycle foreign key is its `(month, year)` pair and
the contract foreign key the contract's `id_hex`. -/
structure EmployerInvoice where
  invoice_number : String
  cycle_month : Nat
  cycle_year : Nat
  contract_id : String
  employer : EmployerUser
  worker_salary_amount : Int
  service_fee_amount : Int
  additional_fees : Int
  total_amount : Int
  status : InvoiceStatus
  due_date : PyDate
  paid_date_set : Bool
  payment_method : Option String
  transaction_reference : Option String
deriving DecidableEq

/-- `WorkerPayment` (payments/models.py), keyed by its unique
`payment_reference`. -/
structure WorkerPayment where
  payment_reference : String
  cycle_month : Nat
  cycle_year : Nat
  contract_id : String
  worker_id : String
  invoice_number : String
  salary_amount : Int
  deductions : Int
  net_amount : Int
  payment_method : PaymentMethodType
  payment_provider : Option String
  account_number : String
  account_name : Option String
  status : PaymentStatus
  transaction_id : Option String
  scheduled_date : PyDate
  failure_reason : Option String
  retry_count : Int
deriving DecidableEq

/-- `PaymentTransaction` (payments/models.py), the ledger, keyed by its unique
`external_reference`.  `completed_at_set` models the `completed_at`
timestamp. -/
structure PaymentTransaction where
  transaction_type : TransactionType
  external_reference : String
  internal_reference : Option String
  amount : Int
  currency : String
  payment_method : String
  payment_provider : String
  status : TransactionStatus
  completed_at_set : Bool
deriving DecidableEq

/-- The persistent state the payroll subsystem reads and writes. -/
structure DB where
  cycles : List PayrollCycle
  invoices : List EmployerInvoice
  worker_payments : List WorkerPayment
  transactions : List PaymentTransaction
  contracts : List Contract
  fee_configs : List ServiceFeeConfig
deriving DecidableEq

/-- Update the first element satisfying `p` (Django's `instance.save()`: the
row with the matching unique key is rewritten in place). -/
def updateFirst (p : α → Bool) (f : α → α) : List α → List α
  | [] => []
  | x :: xs => if p x then f x :: xs else x :: updateFirst p f xs

/-- How an external provider answered one HTTP exchange: whether the
authentication handshake (or, for Flutterwave, the request itself) succeeded
without raising, the HTTP status code of the main call, and provider-supplied
payload fields. -/
structure ProviderEnv where
  authOk : Bool
  statusCode : Nat
  txnId : Option String := none
  link : Option String := none
deriving DecidableEq

/-- The dictionary each gateway operation returns to its caller. -/
structure GatewayResult where
  success : Bool
  status : String
  error : Option String := none
  message : Option String := none
  transaction_id : Option String := none
  payment_link : Option String := none
  transaction : Option PaymentTransaction := none
deriving DecidableEq

/-! ## Fee calculators

Two distinct `FeeCalculator` classes exist: one in `payments/service.py` and
one in `contracts/services/fee_calculator.py`.  They differ in the
no-active-config fallback and in how missing fields are handled. -/

/-- Python `int(x * 0.25)` for an integer `x`: `0.25` is an exact binary
float, so the product is exact and `int` truncates toward zero. -/
def pyIntQuarter (salary : Int) : Int :=
  Int.tdiv salary 4

/-- Python `int(salary * (Decimal(percentage) / 100))` where `percentage` is a
`DecimalField` with two decimal places, given here scaled by 100 as `p100`:
exact decimal arithmetic followed by truncation toward zero. -/
def pyPercentageFee (salary p100 : Int) : Int :=
  Int.tdiv (salary * p100) 10000

/-- `if config.minimum_fee and fee < config.minimum_fee: fee = minimum_fee`
(shared by both calculators).  `None` and `0` are falsy, so a stored minimum
of `0` is skipped. -/
def pyClampMinFee (minimum_fee : Option Int) (fee : Int) : Int :=
  match minimum_fee with
  | none => fee
  | some m => if m ≠ 0 ∧ fee < m then m else fee

/-- `if config.maximum_fee and fee > config.maximum_fee: fee = maximum_fee`. -/
def pyClampMaxFee (maximum_fee : Option Int) (fee : Int) : Int :=
  match maximum_fee with
  | none => fee
  | some m => if m ≠ 0 ∧ fee > m then m else fee

namespace ContractsFeeCalculator

/-- One step of the tier scan of `FeeCalculator._calculate_tiered_fee`
(contracts/services/fee_calculator.py): `tier.get('min', 0)`,
`tier.get('max', float('inf'))`, `tier.get('fee', 0)`. -/
def tierMatches (salary : Int) (t : FeeTier) : Bool :=
  t.tmin.getD 0 ≤ salary &&
    (match t.tmax with
     | none => true
     | some mx => salary ≤ mx)

/-- `FeeCalculator._calculate_tiered_fee` (contracts/services/fee_calculator.py).
An absent or empty `tier_config` yields 0; otherwise the first band containing
the salary wins, and the last band's fee is the open-ended fallback.  The
`tier_config` is taken already JSON-decoded into a list of bands. -/
def calculate_tiered_fee (tier_config : Option (List FeeTier)) (salary : Int) : Int :=
  match tier_config with
  | none => 0
  | some [] => 0
  | some (t0 :: rest) =>
    match (t0 :: rest).find? (tierMatches salary) with
    | some t => t.tfee.getD 0
    | none => ((t0 :: rest).getLast (List.cons_ne_nil t0 rest)).tfee.getD 0

/-- `FeeCalculator.calculate_service_fee` (contracts/services/fee_calculator.py),
with the `ServiceFeeConfig.objects.get(...)` lookup already resolved: `none`
is the `DoesNotExist` branch, whose fallback is
`max(int(worker_salary * 0.25), 100000)`.  For a present config the raw fee is
computed by policy — `config.fixed_amount or 0` for FIXED_AMOUNT, a truthiness
guard on `config.percentage` for PERCENTAGE, the tier scan for TIERED — and
the min/max limits are then applied. -/
def calculate_service_fee (config? : Option ServiceFeeConfig) (worker_salary : Int) : Int :=
  match config? with
  | none => max (pyIntQuarter worker_salary) 100000
  | some config =>
    let fee : Int :=
      match config.fee_type with
      | .fixed_amount => config.fixed_amount.getD 0
      | .percentage =>
        match config.percentage100 with
        | none => 0
        | some p => if p ≠ 0 then pyPercentageFee worker_salary p else 0
      | .tiered => calculate_tiered_fee config.tier_config worker_salary
    pyClampMaxFee config.maximum_fee (pyClampMinFee config.minimum_fee fee)

end ContractsFeeCalculator

namespace PaymentsFeeCalculator

/-- The tier scan of `FeeCalculator.calculate_tiered_fee` (payments/service.py):
`tier["min"] <= salary <= tier["max"]` reads `min` first, short-circuits if it
exceeds the salary, and only then reads `max`; `tier["fee"]` is read only on a
match.  A missing key is a `KeyError`.  `none` means the loop fell through. -/
def tieredLoop (salary : Int) : List FeeTier → Option (Except PyError Int)
  | [] => none
  | t :: rest =>
    match t.tmin with
    | none => some (.error (.keyError "min"))
    | some mn =>
      if mn ≤ salary then
        match t.tmax with
        | none => some (.error (.keyError "max"))
        | some mx =>
          if salary ≤ mx then
            match t.tfee with
            | none => some (.error (.keyError "fee"))
            | some f => some (.ok f)
          else tieredLoop salary rest
      else tieredLoop salary rest

/-- `FeeCalculator.calculate_tiered_fee` (payments/service.py).  Iterating a
`None` config is a `TypeError`; if no band matches, `tier_config[-1]["fee"]`
indexes the last band (an `IndexError` on an empty list). -/
def calculate_tiered_fee (tier_config : Option (List FeeTier)) (salary : Int) :
    Except PyError Int :=
  match tier_config with
  | none => .error (.typeError "tier_config is not iterable")
  | some tiers =>
    match tieredLoop salary tiers with
    | some r => r
    | none =>
      match tiers.getLast? with
      | none => .error (.indexError "tier_config is empty")
      | some t =>
        match t.tfee with
        | none => .error (.keyError "fee")
        | some f => .ok f

/-- `FeeCalculator.calculate_service_fee` (payments/service.py), with the
config lookup already resolved (`none` = `DoesNotExist`, whose fallback is
`int(worker_salary * 0.25)` with no clamp).  A FIXED_AMOUNT config with no
stored amount, or a PERCENTAGE config with no stored percentage, leaves the
computation operating on `None` — a `TypeError` once the value is used (this
branch reads the field with no `or 0` guard, unlike the contracts
calculator). -/
def calculate_service_fee (config? : Option ServiceFeeConfig) (worker_salary : Int) :
    Except PyError Int :=
  match config? with
  | none => .ok (pyIntQuarter worker_salary)
  | some config =>
    let rawFee : Except PyError Int :=
      match config.fee_type with
      | .fixed_amount =>
        match config.fixed_amount with
        | none => .error (.typeError "fixed_amount is None")
        | some v => .ok v
      | .percentage =>
        match config.percentage100 with
        | none => .error (.typeError "percentage is None")
        | some p => .ok (pyPercentageFee worker_salary p)
      | .tiered => calculate_tiered_fee config.tier_config worker_salary
    match rawFee with
    | .error e => .error e
    | .ok fee => .ok (pyClampMaxFee config.maximum_fee (pyClampMinFee config.minimum_fee fee))

end PaymentsFeeCalculator

/-! ## Model methods (payments/models.py) -/

/-- `EmployerInvoice.mark_as_paid` (payments/models.py): unconditionally sets
the status to PAID, stamps `paid_date`, and records the method and
reference. -/
def EmployerInvoice.mark_as_paid (inv : EmployerInvoice)
    (payment_method transaction_reference : String) : EmployerInvoice :=
  { inv with
    status := .paid
    paid_date_set := true
    payment_method := some payment_method
    transaction_reference := some transaction_reference }

/-- `WorkerPayment.mark_as_completed` (payments/models.py). -/
def WorkerPayment.mark_as_completed (p : WorkerPayment)
    (transaction_id : String) : WorkerPayment :=
  { p with
    status := .completed
    transaction_id := some transaction_id }

/-- `WorkerPayment.mark_as_failed` (payments/models.py): sets FAILED, records
the reason and increments `retry_count`.  No code in the repository calls this
method. -/
def WorkerPayment.mark_as_failed (p : WorkerPayment) (reason : String) : WorkerPayment :=
  { p with
    status := .failed
    failure_reason := some reason
    retry_count := p.retry_count + 1 }

/-! ## Database lookups and row updates -/

/-- `PaymentTransaction.objects.filter(external_reference=tid).first()`.
Filtering on a `None` value matches no row. -/
def findTxnByExternal (db : DB) (tid? : Option String) : Option PaymentTransaction :=
  match tid? with
  | none => none
  | some tid => db.transactions.find? (fun t => t.external_reference == tid)

/-- `PaymentTransaction.objects.filter(internal_reference=tid).first()`. -/
def findTxnByInternal (db : DB) (tid? : Option String) : Option PaymentTransaction :=
  match tid? with
  | none => none
  | some tid => db.transactions.find? (fun t => t.internal_reference == some tid)

/-- `transaction.status = s; transaction.save()`: rewrite the row whose unique
`external_reference` is `ref`. -/
def setTransactionStatus (db : DB) (ref : String) (s : TransactionStatus)
    (completed : Bool) : DB :=
  { db with
    transactions :=
      updateFirst (fun t => t.external_reference == ref)
        (fun t => { t with status := s, completed_at_set := completed || t.completed_at_set })
        db.transactions }

/-- `invoice.save()` after mutating the row with this `invoice_number`. -/
def updateInvoice (db : DB) (invoice_number : String)
    (f : EmployerInvoice → EmployerInvoice) : DB :=
  { db with
    invoices := updateFirst (fun i => i.invoice_number == invoice_number) f db.invoices }

/-- `payment.save()` after mutating the row with this `payment_reference`. -/
def updateWorkerPayment (db : DB) (payment_reference : String)
    (f : WorkerPayment → WorkerPayment) : DB :=
  { db with
    worker_payments :=
      updateFirst (fun p => p.payment_reference == payment_reference) f db.worker_payments }

/-- `cycle.save()`: rewrite the cycle with this unique `(month, year)` pair. -/
def saveCycle (db : DB) (c : PayrollCycle) : DB :=
  { db with
    cycles := updateFirst (fun x => x.month == c.month && x.year == c.year) (fun _ => c) db.cycles }

/-! ## Payment gateways (payments/services/payment_gateway.py) -/

namespace PaymentGateway

/-- `PaymentGateway._create_transaction_record`: `PaymentTransaction.objects.create`
with `status=INITIATED`.  The unique index on `external_reference` makes the
insert an `IntegrityError` when a row with that reference already exists. -/
def create_transaction_record (transaction_type : TransactionType) (amount : Int)
    (reference : String) (gateway_name : String) (internal_reference : Option String)
    (db : DB) : Except PyError (PaymentTransaction × DB) :=
  if db.transactions.any (fun t => t.external_reference == reference) then
    .error (.integrityError "duplicate key value violates unique constraint")
  else
    let t : PaymentTransaction :=
      { transaction_type := transaction_type
        external_reference := reference
        internal_reference := internal_reference
        amount := amount
        currency := "UGX"
        payment_method := gateway_name
        payment_provider := gateway_name
        status := .initiated
        completed_at_set := false }
    .ok (t, { db with transactions := db.transactions ++ [t] })

end PaymentGateway

namespace MTNMobileMoney

/-- `MTNMobileMoney.initiate_payment`: after a successful auth handshake and a
200/202 response from `requesttopay`, one ledger row is created; every failure
path — auth exception, non-2xx response, or the `IntegrityError` from a
duplicate reference — is caught by the surrounding `except Exception` and
returned as `{success: False, status: "failed", error}`. -/
def initiate_payment (env : ProviderEnv) (amount : Int) (reference : String)
    (db : DB) : GatewayResult × DB :=
  if ¬ env.authOk then
    ({ success := false, status := "failed", error := some "Failed to get auth token" }, db)
  else if env.statusCode == 200 || env.statusCode == 202 then
    match PaymentGateway.create_transaction_record .employer_payment amount reference
        "MTN Mobile Money" (some reference) db with
    | .ok (t, db') =>
      ({ success := true
         status := "initiated"
         transaction_id := some reference
         message := some "Payment request sent to customer"
         transaction := some t }, db')
    | .error _ =>
      ({ success := false, status := "failed"
         error := some "duplicate key value violates unique constraint" }, db)
  else
    ({ success := false, status := "failed", error := some "API Error" }, db)

/-- `MTNMobileMoney.disburse_payment`: identical control flow against the
`disbursement/v1_0/transfer` endpoint, creating a WORKER_DISBURSEMENT row. -/
def disburse_payment (env : ProviderEnv) (amount : Int) (reference : String)
    (db : DB) : GatewayResult × DB :=
  if ¬ env.authOk then
    ({ success := false, status := "failed", error := some "Failed to get auth token" }, db)
  else if env.statusCode == 200 || env.statusCode == 202 then
    match PaymentGateway.create_transaction_record .worker_disbursement amount reference
        "MTN Mobile Money" (some reference) db with
    | .ok (t, db') =>
      ({ success := true
         status := "initiated"
         transaction_id := some reference
         message := some "Payment disbursement initiated"
         transaction := some t }, db')
    | .error _ =>
      ({ success := false, status := "failed"
         error := some "duplicate key value violates unique constraint" }, db)
  else
    ({ success := false, status := "failed", error := some "API Error" }, db)

end MTNMobileMoney

namespace AirtelMoney

/-- `AirtelMoney.initiate_payment`: only a 200 response is a success; the
provider's own transaction id (`data.transaction.id`, possibly absent) is
stored as `internal_reference` and echoed as `transaction_id`. -/
def initiate_payment (env : ProviderEnv) (amount : Int) (reference : String)
    (db : DB) : GatewayResult × DB :=
  if ¬ env.authOk then
    ({ success := false, status := "failed", error := some "Failed to get auth token" }, db)
  else if env.statusCode == 200 then
    match PaymentGateway.create_transaction_record .employer_payment amount reference
        "Airtel Money" env.txnId db with
    | .ok (t, db') =>
      ({ success := true
         status := "initiated"
         transaction_id := env.txnId
         message := some "Payment initiated"
         transaction := some t }, db')
    | .error _ =>
      ({ success := false, status := "failed"
         error := some "duplicate key value violates unique constraint" }, db)
  else
    ({ success := false, status := "failed", error := some "API Error" }, db)

end AirtelMoney

namespace FlutterwaveGateway

/-- `FlutterwaveGateway.initiate_payment`: no auth handshake (a raised request
exception is folded into `authOk = false`); a 200 response yields a payment
link and one ledger row. -/
def initiate_payment (env : ProviderEnv) (amount : Int) (reference : String)
    (db : DB) : GatewayResult × DB :=
  if ¬ env.authOk then
    ({ success := false, status := "failed", error := some "request error" }, db)
  else if env.statusCode == 200 then
    match PaymentGateway.create_transaction_record .employer_payment amount reference
        "Flutterwave" (some reference) db with
    | .ok (t, db') =>
      ({ success := true
         status := "initiated"
         payment_link := env.link
         message := some "Payment link generated"
         transaction := some t }, db')
    | .error _ =>
      ({ success := false, status := "failed"
         error := some "duplicate key value violates unique constraint" }, db)
  else
    ({ success := false, status := "failed", error := some "API Error" }, db)

end FlutterwaveGateway

/-! ## PaymentWorkflow (payments/service.py) -/

namespace PaymentWorkflow

/-- Python `s.startswith(prefix)`, written over the character list so that it
evaluates inside the kernel. -/
def pyStartsWith (s pre : String) : Bool :=
  pre.data.isPrefixOf s.data

/-- `PaymentWorkflow.detect_provider`: phone-prefix routing. -/
def detect_provider (phone : String) : String :=
  if pyStartsWith phone "+25677" || pyStartsWith phone "+25676" then "mtn"
  else if pyStartsWith phone "+25670" || pyStartsWith phone "+25671" then "airtel"
  else "unknown"

/-- `PaymentWorkflow.process_employer_payment` (inside `transaction.atomic`):
route by the employer's phone prefix; an unknown prefix with no email on file
`raise`s a `ValueError` that escapes to the caller.  On a successful gateway
result the invoice's status is set to PENDING and its `payment_method`
recorded (the `invoice.transaction = transaction` assignment writes a Python
attribute that is not a model field, so nothing further is persisted); the
caller receives a fresh success dictionary.  On a non-success gateway result
the invoice is untouched and the gateway's dictionary is returned as is. -/
def process_employer_payment (env : ProviderEnv) (invoice : EmployerInvoice)
    (db : DB) : Except PyError GatewayResult × DB :=
  let phone := invoice.employer.phone
  let provider := detect_provider phone
  let gateway? : Option (GatewayResult × DB) :=
    if provider == "mtn" then
      some (MTNMobileMoney.initiate_payment env invoice.total_amount invoice.invoice_number db)
    else if provider == "airtel" then
      some (AirtelMoney.initiate_payment env invoice.total_amount invoice.invoice_number db)
    else if provider == "unknown" && invoice.employer.email != "" then
      some (FlutterwaveGateway.initiate_payment env invoice.total_amount invoice.invoice_number db)
    else none
  match gateway? with
  | none => (.error (.valueError "Unsupported provider for phone"), db)
  | some (result, db1) =>
    if result.success then
      let db2 := updateInvoice db1 invoice.invoice_number
        (fun i => { i with status := .pending, payment_method := some provider })
      (.ok { success := true
             status := "initiated"
             transaction_id := result.transaction_id
             payment_link := result.payment_link
             message := result.message }, db2)
    else
      (.ok result, db1)

/-- `PaymentWorkflow.disburse_worker_salary` (inside `transaction.atomic`):
route by the payment's stored method.  `AirtelMoney` defines no
`disburse_payment`, so that branch hits the base class and raises
`NotImplementedError`; bank transfers and cash pickups return a canned success
with no gateway call and no ledger row.  On success the payment's status is
set to PROCESSING (the `worker_payment.transaction = transaction` assignment
is again a non-field attribute). -/
def disburse_worker_salary (env : ProviderEnv) (p : WorkerPayment)
    (db : DB) : Except PyError GatewayResult × DB :=
  let call? : Except PyError (GatewayResult × DB) :=
    match p.payment_method with
    | .mobile_money_mtn =>
      .ok (MTNMobileMoney.disburse_payment env p.net_amount p.payment_reference db)
    | .mobile_money_airtel =>
      .error (.notImplementedError "AirtelMoney.disburse_payment")
    | .bank_transfer =>
      .ok ({ success := true, status := "pending", message := some "Bank transfer initiated" }, db)
    | .cash_pickup =>
      .ok ({ success := true, status := "pending", message := some "Cash pickup voucher generated" }, db)
  match call? with
  | .error e => (.error e, db)
  | .ok (result, db1) =>
    if result.success then
      (.ok result, updateWorkerPayment db1 p.payment_reference
        (fun q => { q with status := .processing }))
    else
      (.ok result, db1)

end PaymentWorkflow

/-- The per-invoice failure handling of the `disburse_worker_salaries` task
(payments/service.py, the `else` branch after `workflow.disburse_worker_salary`):
on a non-success result the payment's status is set to FAILED and
`failure_reason` is set from the result's `error` — `retry_count` is not
touched.  A raised exception from the workflow escapes the task unchanged. -/
def disburseWorkerSalaryAttempt (env : ProviderEnv) (p : WorkerPayment)
    (db : DB) : Except PyError GatewayResult × DB :=
  match PaymentWorkflow.disburse_worker_salary env p db with
  | (.error e, db1) => (.error e, db1)
  | (.ok result, db1) =>
    if result.success then (.ok result, db1)
    else
      (.ok result, updateWorkerPayment db1 p.payment_reference
        (fun q => { q with status := .failed, failure_reason := result.error }))

/-! ## Webhook handlers (payments/webhooks.py) -/

/-- An HTTP response: just the status code (bodies are constants). -/
structure HttpResp where
  code : Nat
deriving DecidableEq

/-- The fields the handlers read from a parsed webhook payload, after
`gateway.parse_webhook`: `dict.get` yields `Option`s.  For MTN the id is
`financialTransactionId`, for Airtel `transaction.id`, for Flutterwave `id`
and `tx_ref`. -/
structure WebhookEvent where
  transaction_id : Option String
  reference : Option String := none
  status : Option String
deriving DecidableEq

/-- The combined transaction lookup of `mtn_webhook`: by `external_reference`,
falling back to `internal_reference`. -/
def webhookLookupMtn (db : DB) (tid? : Option String) : Option PaymentTransaction :=
  match findTxnByExternal db tid? with
  | some t => some t
  | none => findTxnByInternal db tid?

/-- `mtn_webhook` (payments/webhooks.py).  The `X-Callback-Signature` header is
read but `is_valid` is assigned `True` on both branches of the `settings.DEBUG`
check, so no payload is ever rejected with 403.  An unparseable body is a 400.
The transaction is looked up by `external_reference`, falling back to
`internal_reference`.  A `SUCCESSFUL` status reaches
`PaymentTransaction.TransactionStatus.COMPLETED` — an enum member that does
not exist — so an `AttributeError` escapes (only `json.JSONDecodeError` is
caught) before anything is written; a `FAILED` status marks the transaction
FAILED; any other status saves the row unchanged. -/
def mtn_webhook (signature : Option String) (body : Option WebhookEvent)
    (db : DB) : Except PyError HttpResp × DB :=
  let is_valid := true
  if ¬ is_valid then (.ok ⟨403⟩, db)
  else
    match body with
    | none => (.ok ⟨400⟩, db)
    | some ev =>
      match webhookLookupMtn db ev.transaction_id with
      | none => (.ok ⟨200⟩, db)
      | some t =>
        if ev.status == some "SUCCESSFUL" then
          (.error (.attributeError "type object TransactionStatus has no attribute COMPLETED"), db)
        else if ev.status == some "FAILED" then
          (.ok ⟨200⟩, setTransactionStatus db t.external_reference .failed false)
        else
          (.ok ⟨200⟩, db)

/-- `airtel_webhook` (payments/webhooks.py): no signature is read at all; the
lookup uses only `external_reference`; an Airtel `TS` status hits the same
nonexistent `COMPLETED` member, `TF` marks the transaction FAILED. -/
def airtel_webhook (body : Option WebhookEvent) (db : DB) :
    Except PyError HttpResp × DB :=
  match body with
  | none => (.ok ⟨400⟩, db)
  | some ev =>
    match findTxnByExternal db ev.transaction_id with
    | none => (.ok ⟨200⟩, db)
    | some t =>
      if ev.status == some "TS" then
        (.error (.attributeError "type object TransactionStatus has no attribute COMPLETED"), db)
      else if ev.status == some "TF" then
        (.ok ⟨200⟩, setTransactionStatus db t.external_reference .failed false)
      else
        (.ok ⟨200⟩, db)

/-- `flutterwave_webhook` (payments/webhooks.py): the only handler that
verifies — the `verifi-hash` header must equal
`settings.FLUTTERWAVE_WEBHOOK_HASH` or the request is a 403 with no state
change.  The transaction is looked up by `tx_ref`; a `successful` status hits
the nonexistent `COMPLETED` member before `verify_payment` is ever called;
`failed` marks the transaction FAILED. -/
def flutterwave_webhook (signature : Option String) (webhook_hash : String)
    (body : Option WebhookEvent) (db : DB) : Except PyError HttpResp × DB :=
  if signature == none || signature != some webhook_hash then (.ok ⟨403⟩, db)
  else
    match body with
    | none => (.ok ⟨400⟩, db)
    | some ev =>
      match findTxnByExternal db ev.reference with
      | none => (.ok ⟨200⟩, db)
      | some t =>
        if ev.status == some "successful" then
          (.error (.attributeError "type object TransactionStatus has no attribute COMPLETED"), db)
        else if ev.status == some "failed" then
          (.ok ⟨200⟩, setTransactionStatus db t.external_reference .failed false)
        else
          (.ok ⟨200⟩, db)

/-! ## Scheduled tasks (payments/service.py) -/

/-- What `poll_payment_status` returns to the scheduler. -/
structure PollResult where
  success : Bool
  status : Option String := none
  error : Option String := none
deriving DecidableEq

/-- What the shared tasks return. -/
structure TaskResult where
  status : String
  reason : Option String := none
  invoices_created : Option Nat := none
  payments_processed : Option Nat := none
  failed_payments : Option Nat := none
deriving DecidableEq

/-- `poll_payment_status` (payments/service.py).  `checks` gives the `status`
field of `gateway.check_payment_status` for each attempt.  `max_retries` is 10
and `retry_delay` 30 seconds, but `payments/service.py` never imports `time`,
so every path that reaches `time.sleep(retry_delay)` raises an uncaught
`NameError`; within the `try`, a `successful` result on a known transaction
reaches the nonexistent `TransactionStatus.COMPLETED` member — that
`AttributeError` is caught by the `except Exception`, after which the sleep
raises.  Consequently:

  * a provider outside the three known ones returns an error result at once;
  * `FlutterwaveGateway` defines no `check_payment_status`, so the base class
    raises `NotImplementedError`, which is caught, and the sleep then raises;
  * a first result of `failed` marks the transaction FAILED and returns;
  * a first result of `successful` on an unknown reference returns success
    without touching anything;
  * every other first result (including `successful` on a known reference and
    `pending`) ends in the `NameError` — the loop can never reach a second
    attempt, and the post-loop timeout return is unreachable. -/
def poll_payment_status (provider : String) (checks : Nat → String)
    (transaction_id : String) (db : DB) : Except PyError PollResult × DB :=
  let max_retries : Nat := 10
  if provider != "mtn" && provider != "airtel" && provider != "flutterwave" then
    (.ok { success := false, error := some "Unknown provider" }, db)
  else
    match max_retries with
    | 0 => (.ok { success := false, status := some "timeout" }, db)
    | _ + 1 =>
      if provider == "flutterwave" then
        (.error (.nameError "name time is not defined"), db)
      else
        let s := checks 0
        if s == "successful" then
          match findTxnByExternal db (some transaction_id) with
          | some _ => (.error (.nameError "name time is not defined"), db)
          | none => (.ok { success := true, status := some "completed" }, db)
        else if s == "failed" then
          match findTxnByExternal db (some transaction_id) with
          | some t =>
            (.ok { success := false, status := some "failed" },
             setTransactionStatus db t.external_reference .failed false)
          | none => (.ok { success := false, status := some "failed" }, db)
        else
          (.error (.nameError "name time is not defined"), db)

/-- `schedule_worker_payment` (payments/service.py): looks the invoice up,
reports `skipped` when a WorkerPayment for it already exists, and otherwise
merely reports `scheduled` — it never creates or modifies any row. -/
def schedule_worker_payment (invoice_number : String) (db : DB) : TaskResult × DB :=
  match db.invoices.find? (fun i => i.invoice_number == invoice_number) with
  | none => ({ status := "error", reason := some "Invoice not found" }, db)
  | some inv =>
    match db.worker_payments.find? (fun p => p.invoice_number == inv.invoice_number) with
    | some _ => ({ status := "skipped", reason := some "Payment already exists" }, db)
    | none => ({ status := "scheduled" }, db)

/-- `ServiceFeeConfig.objects.get(category_id=..., is_active=True,
effective_from__lte=today)` — the lookup used by both fee calculators; at most
one matching row is assumed (`MultipleObjectsReturned` is not modelled). -/
def feeConfigLookup (db : DB) (today : PyDate) (category_id : Nat) :
    Option ServiceFeeConfig :=
  db.fee_configs.find?
    (fun cfg => cfg.category_id == category_id && cfg.is_active && cfg.effective_from.ble today)

/-- `f"{month:02d}"`. -/
def pad2 (n : Nat) : String :=
  if n < 10 then "0" ++ toString n else toString n

/-- The defaults `get_or_create` fills a fresh `PayrollCycle` with. -/
def defaultCycle (month year : Nat) : PayrollCycle :=
  { month := month, year := year
    total_contracts := 0, total_worker_salaries := 0
    total_service_fees := 0, total_revenue := 0
    invoices_generated := false, payments_processed := false, cycle_closed := false
    invoice_generation_date_set := false, payment_processing_date_set := false }

/-- `PayrollCycle.objects.get_or_create(month=..., year=...)` with zeroed
totals as defaults. -/
def getOrCreateCycle (month year : Nat) (db : DB) : PayrollCycle × DB :=
  match db.cycles.find? (fun c => c.month == month && c.year == year) with
  | some c => (c, db)
  | none =>
    (defaultCycle month year,
      { db with cycles := db.cycles ++ [defaultCycle month year] })

/-- The `EmployerInvoice.objects.create(...)` call of
`generate_monthly_invoices`; `due_date=today + timedelta(days=10)` is exact
here because this code only runs with `today.day = 15`. -/
def mkGeneratedInvoice (today : PyDate) (cycle : PayrollCycle) (c : Contract)
    (service_fee : Int) : EmployerInvoice :=
  { invoice_number :=
      "INV-" ++ toString today.year ++ "-" ++ pad2 today.month ++ "-"
        ++ (c.id_hex.take 8).toUpper
    cycle_month := cycle.month
    cycle_year := cycle.year
    contract_id := c.id_hex
    employer := c.employer
    worker_salary_amount := c.worker_salary_amount
    service_fee_amount := service_fee
    additional_fees := 0
    total_amount := c.worker_salary_amount + service_fee
    status := .pending
    due_date := { today with day := today.day + 10 }
    paid_date_set := false
    payment_method := none
    transaction_reference := none }

/-- The per-contract loop of `generate_monthly_invoices`: skip contracts that
already have an invoice in this cycle, otherwise compute the fee (an escaped
fee-calculator exception aborts the task, leaving the invoices created so far
persisted and the in-memory cycle totals unsaved), create the invoice and
accumulate the cycle totals in memory. -/
def invoiceGenerationLoop (today : PyDate) :
    List Contract → DB → PayrollCycle → Nat → Except PyError (PayrollCycle × Nat) × DB
  | [], db, cycle, count => (.ok (cycle, count), db)
  | c :: rest, db, cycle, count =>
    if db.invoices.any (fun i =>
        i.contract_id == c.id_hex && i.cycle_month == cycle.month
          && i.cycle_year == cycle.year) then
      invoiceGenerationLoop today rest db cycle count
    else
      match PaymentsFeeCalculator.calculate_service_fee
          (feeConfigLookup db today c.category_id) c.worker_salary_amount with
      | .error e => (.error e, db)
      | .ok fee =>
        let inv := mkGeneratedInvoice today cycle c fee
        let db' := { db with invoices := db.invoices ++ [inv] }
        let cycle' :=
          { cycle with
            total_contracts := cycle.total_contracts + 1
            total_worker_salaries := cycle.total_worker_salaries + c.worker_salary_amount
            total_service_fees := cycle.total_service_fees + fee
            total_revenue := cycle.total_revenue + fee }
        invoiceGenerationLoop today rest db' cycle' (count + 1)

/-- `generate_monthly_invoices` (payments/service.py): on any day other than
the 15th it returns a `skipped` result before touching anything; otherwise it
gets or creates the cycle for `(today.month, today.year)`, invoices every
active contract with `start_date <= today` that has none for this cycle, and
finally saves the cycle with `invoices_generated = True`. -/
def generate_monthly_invoices (today : PyDate) (db : DB) :
    Except PyError TaskResult × DB :=
  if today.day ≠ 15 then
    (.ok { status := "skipped", reason := some "Not invoice generation day" }, db)
  else
    let (cycle, db1) := getOrCreateCycle today.month today.year db
    let active := db1.contracts.filter
      (fun c => c.status == "active" && c.start_date.ble today)
    match invoiceGenerationLoop today active db1 cycle 0 with
    | (.error e, db2) => (.error e, db2)
    | (.ok (cycle', n), db2) =>
      (.ok { status := "success", invoices_created := some n },
       saveCycle db2
         { cycle' with invoices_generated := true, invoice_generation_date_set := true })

/-- `disburse_worker_salaries` (payments/service.py): skipped before the 28th;
an absent cycle is an error result.  The per-invoice loop `continue`s past
every PAID invoice that already has a WorkerPayment (the `worker=worker`
filter adds nothing: a payment's worker is its contract's worker), but the
first invoice that needs one reaches
`WorkerPaymentMethod.objects.get(worker=worker, is_default=True)` —
`WorkerPaymentMethod` is never imported in payments/service.py, so a
`NameError` escapes with nothing yet written.  Only when every paid invoice is
already covered does the task reach its end and save the cycle with
`payments_processed = True`. -/
def disburse_worker_salaries (today : PyDate) (db : DB) :
    Except PyError TaskResult × DB :=
  if today.day < 28 then
    (.ok { status := "skipped", reason := some "Not disbursement period" }, db)
  else
    match db.cycles.find? (fun c => c.month == today.month && c.year == today.year) with
    | none => (.ok { status := "error", reason := some "Payroll cycle not found" }, db)
    | some cycle =>
      let paid := db.invoices.filter (fun i =>
        i.cycle_month == cycle.month && i.cycle_year == cycle.year && i.status == InvoiceStatus.paid)
      if paid.any (fun i =>
          ¬ db.worker_payments.any (fun p =>
            p.invoice_number == i.invoice_number && p.contract_id == i.contract_id)) then
        (.error (.nameError "name WorkerPaymentMethod is not defined"), db)
      else
        (.ok { status := "success", payments_processed := some 0, failed_payments := some 0 },
         saveCycle db
           { cycle with payments_processed := true, payment_processing_date_set := true })

/-! ## Endpoints (payments/views.py) -/

/-- A DRF response: status code, plus the task result when one is relayed. -/
structure ViewResp where
  code : Nat
  task_result : Option TaskResult := none
deriving DecidableEq

namespace EmployerInvoiceViewSet

/-- `EmployerInvoiceViewSet.pay`: a 404 when the invoice does not exist, a 400
unless its status is PENDING, and otherwise `process_employer_payment` (whose
`ValueError` for an unroutable employer escapes as a server error). -/
def pay (env : ProviderEnv) (invoice_number : String) (db : DB) :
    Except PyError ViewResp × DB :=
  match db.invoices.find? (fun i => i.invoice_number == invoice_number) with
  | none => (.ok ⟨404, none⟩, db)
  | some invoice =>
    if invoice.status ≠ .pending then (.ok ⟨400, none⟩, db)
    else
      match PaymentWorkflow.process_employer_payment env invoice db with
      | (.error e, db') => (.error e, db')
      | (.ok result, db') =>
        if result.success then (.ok ⟨200, none⟩, db') else (.ok ⟨400, none⟩, db')

end EmployerInvoiceViewSet

namespace PayrollCycleViewSet

/-- `PayrollCycleViewSet.generate_invoices`: a 400 when the cycle's invoices
were already generated, otherwise it delegates to the
`generate_monthly_invoices` task and relays the result. -/
def generate_invoices (cycle : PayrollCycle) (today : PyDate) (db : DB) :
    Except PyError ViewResp × DB :=
  if cycle.invoices_generated then (.ok ⟨400, none⟩, db)
  else
    match generate_monthly_invoices today db with
    | (.error e, db') => (.error e, db')
    | (.ok r, db') => (.ok ⟨200, some r⟩, db')

/-- `PayrollCycleViewSet.disburse_salaries`: a 400 unless the cycle's invoices
were generated, otherwise it delegates to the `disburse_worker_salaries`
task. -/
def disburse_salaries (cycle : PayrollCycle) (today : PyDate) (db : DB) :
    Except PyError ViewResp × DB :=
  if ¬ cycle.invoices_generated then (.ok ⟨400, none⟩, db)
  else
    match disburse_worker_salaries today db with
    | (.error e, db') => (.error e, db')
    | (.ok r, db') => (.ok ⟨200, some r⟩, db')

end PayrollCycleViewSet

/-! ## Specification predicates -/

/-- The two states differ at most in the transaction ledger: every invoice,
worker payment, payroll cycle, contract and fee config is untouched. -/
def TxnOnlyDiff (db db' : DB) : Prop :=
  db'.cycles = db.cycles ∧ db'.invoices = db.invoices ∧
  db'.worker_payments = db.worker_payments ∧ db'.contracts = db.contracts ∧
  db'.fee_configs = db.fee_configs

/-- Monotonicity of the three PayrollCycle milestone flags between an old and a
new version of a row. -/
def FlagsMono (a b : PayrollCycle) : Prop :=
  (a.invoices_generated = true → b.invoices_generated = true) ∧
  (a.payments_processed = true → b.payments_processed = true) ∧
  (a.cycle_closed = true → b.cycle_closed = true)

/-- All fee-relevant parameters of a config are non-negative. -/
def FeeParamsNonneg (cfg : ServiceFeeConfig) : Prop :=
  (∀ v, cfg.fixed_amount = some v → 0 ≤ v) ∧
  (∀ p, cfg.percentage100 = some p → 0 ≤ p) ∧
  (∀ ts, cfg.tier_config = some ts → ∀ t ∈ ts, 0 ≤ t.tfee.getD 0) ∧
  (∀ m, cfg.minimum_fee = some m → 0 ≤ m) ∧
  (∀ m, cfg.maximum_fee = some m → 0 ≤ m)

/-! ## Concrete fixtures for counterexamples and witnesses -/

/-- An empty database. -/
def emptyDB : DB :=
  { cycles := [], invoices := [], worker_payments := [], transactions := []
    contracts := [], fee_configs := [] }

/-- A provider whose HTTP call answers 500 after a good auth handshake. -/
def envHttp500 : ProviderEnv := { authOk := true, statusCode := 500 }

/-- A provider that accepts the call. -/
def envHttp200 : ProviderEnv := { authOk := true, statusCode := 200 }

/-- A pending employer-payment ledger row under reference `FTX-1`. -/
def c3Txn : PaymentTransaction :=
  { transaction_type := .employer_payment
    external_reference := "FTX-1"
    internal_reference := some "FTX-1"
    amount := 1000
    currency := "UGX"
    payment_method := "MTN Mobile Money"
    payment_provider := "MTN Mobile Money"
    status := .pending
    completed_at_set := false }

/-- A database holding just `c3Txn`. -/
def c3DB : DB := { emptyDB with transactions := [c3Txn] }

/-- A pending ledger row under reference `TX-1` for the poller. -/
def c4Txn : PaymentTransaction := { c3Txn with external_reference := "TX-1", internal_reference := some "TX-1" }

/-- A database holding just `c4Txn`. -/
def c4DB : DB := { emptyDB with transactions := [c4Txn] }

/-- An employer whose phone matches neither mobile-money prefix and who has no
email on file. -/
def c5Employer : EmployerUser :=
  { phone := "+256999000111", email := "", first_name := "A", last_name := "B" }

/-- A pending invoice owned by `c5Employer`. -/
def c5Invoice : EmployerInvoice :=
  { invoice_number := "INV-2024-03-ABCD1234"
    cycle_month := 3, cycle_year := 2024
    contract_id := "abcd1234"
    employer := c5Employer
    worker_salary_amount := 300000
    service_fee_amount := 100000
    additional_fees := 0
    total_amount := 400000
    status := .pending
    due_date := ⟨2024, 3, 25⟩
    paid_date_set := false
    payment_method := none
    transaction_reference := none }

/-- A database holding just `c5Invoice`. -/
def c5DB : DB := { emptyDB with invoices := [c5Invoice] }

/-- A cancelled invoice (same shape as `c5Invoice`). -/
def c2CancelledInvoice : EmployerInvoice := { c5Invoice with status := .cancelled }

/-- A fresh MTN mobile-money worker payment, never retried. -/
def c7Payment : WorkerPayment :=
  { payment_reference := "PAY-2024-03-ABCD1234"
    cycle_month := 3, cycle_year := 2024
    contract_id := "abcd1234"
    worker_id := "w1"
    invoice_number := "INV-2024-03-ABCD1234"
    salary_amount := 300000
    deductions := 0
    net_amount := 300000
    payment_method := .mobile_money_mtn
    payment_provider := some "MTN"
    account_number := "+256771234567"
    account_name := some "A B"
    status := .pending
    transaction_id := none
    scheduled_date := ⟨2024, 3, 28⟩
    failure_reason := none
    retry_count := 0 }

/-- A database holding just `c7Payment`. -/
def c7DB : DB := { emptyDB with worker_payments := [c7Payment] }

/-- A FIXED_AMOUNT config with a negative amount, a stored-but-zero minimum
and a positive maximum: both limits are "set", yet the zero minimum is falsy
and skipped. -/
def c9BadConfig : ServiceFeeConfig :=
  { category_id := 1
    fee_type := .fixed_amount
    fixed_amount := some (-50000)
    percentage100 := none
    tier_config := none
    minimum_fee := some 0
    maximum_fee := some 100000
    is_active := true
    effective_from := ⟨2024, 1, 1⟩ }

/-- A 25% PERCENTAGE config clamped to [100000, 200000]. -/
def c9PercentConfig : ServiceFeeConfig :=
  { category_id := 2
    fee_type := .percentage
    fixed_amount := none
    percentage100 := some 2500
    tier_config := none
    minimum_fee := some 100000
    maximum_fee := some 200000
    is_active := true
    effective_from := ⟨2024, 1, 1⟩ }

/-- A payroll cycle with all flags already raised. -/
def c10Cycle : PayrollCycle :=
  { month := 3, year := 2024
    total_contracts := 2, total_worker_salaries := 600000
    total_service_fees := 200000, total_revenue := 200000
    invoices_generated := true, payments_processed := true, cycle_closed := true
    invoice_generation_date_set := true, payment_processing_date_set := true }

/-- A parsed MTN event reporting FAILED for `FTX-1`. -/
def c3MtnEvent : WebhookEvent := { transaction_id := some "FTX-1", status := some "FAILED" }

/-- A parsed Airtel event reporting TF (failed) for `FTX-1`. -/
def c3AirtelEvent : WebhookEvent := { transaction_id := some "FTX-1", status := some "TF" }

/-- A parsed Flutterwave event reporting failed for reference `FTX-1`. -/
def c3FwEvent : WebhookEvent :=
  { transaction_id := some "99", reference := some "FTX-1", status := some "failed" }

/-- A parsed MTN event reporting SUCCESSFUL for `FTX-1`. -/
def c6SuccessEvent : WebhookEvent :=
  { transaction_id := some "FTX-1", status := some "SUCCESSFUL" }

/-! ## Helper lemmas -/

theorem updateFirst_length {α : Type} (p : α → Bool) (f : α → α) (l : List α) :
    (updateFirst p f l).length = l.length := by
  induction l with
  | nil => rfl
  | cons x xs ih =>
    cases hpx : p x
    · simp [updateFirst, hpx, ih]
    · simp [updateFirst, hpx]

theorem updateFirst_idem {α : Type} (p : α → Bool) (f : α → α)
    (hp : ∀ a, p (f a) = p a) (hf : ∀ a, f (f a) = f a) (l : List α) :
    updateFirst p f (updateFirst p f l) = updateFirst p f l := by
  induction l with
  | nil => rfl
  | cons x xs ih =>
    cases hpx : p x
    · simp [updateFirst, hpx, ih]
    · simp [updateFirst, hpx, hp x, hf x]

theorem find?_updateFirst_map {α β : Type} (pr q : α → Bool) (f : α → α) (g : α → β)
    (hpr : ∀ a, pr (f a) = pr a) (hg : ∀ a, g (f a) = g a) (l : List α) :
    ((updateFirst q f l).find? pr).map g = (l.find? pr).map g := by
  induction l with
  | nil => rfl
  | cons x xs ih =>
    cases hqx : q x
    · cases hprx : pr x
      · simp [updateFirst, hqx, List.find?_cons, hprx, ih]
      · simp [updateFirst, hqx, List.find?_cons, hprx]
    · cases hprx : pr x
      · simp [updateFirst, hqx, List.find?_cons, hpr x, hprx]
      · simp [updateFirst, hqx, List.find?_cons, hpr x, hprx, hg x]

theorem find?_updateFirst_self {α : Type} (k : α → Bool) (f : α → α)
    (hk : ∀ a, k (f a) = k a) (l : List α) (a : α) (h : l.find? k = some a) :
    (updateFirst k f l).find? k = some (f a) := by
  induction l with
  | nil => simp at h
  | cons x xs ih =>
    cases hkx : k x
    · rw [List.find?_cons_of_neg _ (by simp [hkx])] at h
      have h2 := ih h
      simp [updateFirst, hkx, List.find?_cons, h2]
    · rw [List.find?_cons_of_pos _ (by simp [hkx])] at h
      cases h
      simp [updateFirst, hkx, List.find?_cons, hk a]

theorem forall₂_updateFirst {α : Type} {R : α → α → Prop} (hrefl : ∀ a, R a a)
    (q : α → Bool) (f : α → α) (l : List α)
    (h : ∀ a, l.find? q = some a → R a (f a)) :
    List.Forall₂ R l (updateFirst q f l) := by
  induction l with
  | nil => exact .nil
  | cons x xs ih =>
    cases hqx : q x
    · have hl : updateFirst q f (x :: xs) = x :: updateFirst q f xs := by
        simp [updateFirst, hqx]
      rw [hl]
      refine .cons (hrefl x) (ih ?_)
      intro a ha
      exact h a (by rw [List.find?_cons_of_neg _ (by simp [hqx])]; exact ha)
    · have hl : updateFirst q f (x :: xs) = f x :: xs := by
        simp [updateFirst, hqx]
      rw [hl]
      exact .cons (h x (by rw [List.find?_cons_of_pos _ (by simp [hqx])]))
        (List.forall₂_same.mpr (fun a _ => hrefl a))

theorem txnOnlyDiff_refl (db : DB) : TxnOnlyDiff db db :=
  ⟨rfl, rfl, rfl, rfl, rfl⟩

theorem txnOnlyDiff_set (db : DB) (r : String) (s : TransactionStatus) (c : Bool) :
    TxnOnlyDiff db (setTransactionStatus db r s c) :=
  ⟨rfl, rfl, rfl, rfl, rfl⟩

/-- The MTN webhook handler touches at most the transaction ledger. -/
theorem mtn_webhook_txnOnly (sig : Option String) (body : Option WebhookEvent) (db : DB) :
    TxnOnlyDiff db (mtn_webhook sig body db).2 := by
  simp only [mtn_webhook]
  cases body with
  | none => exact txnOnlyDiff_refl db
  | some ev =>
    simp only
    cases hlk : webhookLookupMtn db ev.transaction_id with
    | none => exact txnOnlyDiff_refl db
    | some t =>
      simp only
      repeat' first
        | exact txnOnlyDiff_refl db
        | exact txnOnlyDiff_set db t.external_reference .failed false
        | split

/-- The Airtel webhook handler touches at most the transaction ledger. -/
theorem airtel_webhook_txnOnly (body : Option WebhookEvent) (db : DB) :
    TxnOnlyDiff db (airtel_webhook body db).2 := by
  simp only [airtel_webhook]
  cases body with
  | none => exact txnOnlyDiff_refl db
  | some ev =>
    simp only
    cases hlk : findTxnByExternal db ev.transaction_id with
    | none => exact txnOnlyDiff_refl db
    | some t =>
      simp only
      repeat' first
        | exact txnOnlyDiff_refl db
        | exact txnOnlyDiff_set db t.external_reference .failed false
        | split

/-- The Flutterwave webhook handler touches at most the transaction ledger. -/
theorem flutterwave_webhook_txnOnly (sig : Option String) (h : String)
    (body : Option WebhookEvent) (db : DB) :
    TxnOnlyDiff db (flutterwave_webhook sig h body db).2 := by
  simp only [flutterwave_webhook]
  split
  · exact txnOnlyDiff_refl db
  · cases body with
    | none => exact txnOnlyDiff_refl db
    | some ev =>
      simp only
      cases hlk : findTxnByExternal db ev.reference with
      | none => exact txnOnlyDiff_refl db
      | some t =>
        simp only
        split
        all_goals try exact ⟨rfl, rfl, rfl, rfl, rfl⟩
        all_goals split <;> exact ⟨rfl, rfl, rfl, rfl, rfl⟩

/-- The status poller touches at most the transaction ledger. -/
theorem poll_payment_status_txnOnly (provider : String) (checks : Nat → String)
    (tid : String) (db : DB) :
    TxnOnlyDiff db (poll_payment_status provider checks tid db).2 := by
  simp only [poll_payment_status]
  split
  · exact txnOnlyDiff_refl db
  · split
    · exact txnOnlyDiff_refl db
    · split
      · cases hlk : findTxnByExternal db (some tid) <;>
          simp only [hlk] <;> exact ⟨rfl, rfl, rfl, rfl, rfl⟩
      · split
        · cases hlk : findTxnByExternal db (some tid) <;>
            simp only [hlk] <;> exact ⟨rfl, rfl, rfl, rfl, rfl⟩
        · exact txnOnlyDiff_refl db

/-- The ledger row `_create_transaction_record` inserts for a reference. -/
def freshTxnRecord (ty : TransactionType) (amount : Int) (reference : String)
    (gateway_name : String) (internal_reference : Option String) : PaymentTransaction :=
  { transaction_type := ty
    external_reference := reference
    internal_reference := internal_reference
    amount := amount
    currency := "UGX"
    payment_method := gateway_name
    payment_provider := gateway_name
    status := .initiated
    completed_at_set := false }

theorem create_transaction_record_cases (ty : TransactionType) (amount : Int)
    (reference : String) (g : String) (ir : Option String) (db : DB) :
    (db.transactions.any (fun t => t.external_reference == reference) = false ∧
      PaymentGateway.create_transaction_record ty amount reference g ir db =
        .ok (freshTxnRecord ty amount reference g ir,
          { db with transactions := db.transactions ++ [freshTxnRecord ty amount reference g ir] })) ∨
    (db.transactions.any (fun t => t.external_reference == reference) = true ∧
      PaymentGateway.create_transaction_record ty amount reference g ir db =
        .error (.integrityError "duplicate key value violates unique constraint")) := by
  simp only [PaymentGateway.create_transaction_record]
  cases hany : db.transactions.any (fun t => t.external_reference == reference)
  · exact .inl ⟨rfl, by simp [freshTxnRecord]⟩
  · exact .inr ⟨rfl, by simp⟩

/-- Every gateway call either succeeds having inserted exactly the fresh
ledger row for its reference into a previously reference-free ledger, or
returns a non-success result leaving the database untouched. -/
theorem mtn_initiate_cases (env : ProviderEnv) (a : Int) (ref : String) (db : DB) :
    (db.transactions.any (fun t => t.external_reference == ref) = false ∧
      (MTNMobileMoney.initiate_payment env a ref db).1.success = true ∧
      (MTNMobileMoney.initiate_payment env a ref db).2 =
        { db with transactions :=
            db.transactions ++ [freshTxnRecord .employer_payment a ref "MTN Mobile Money" (some ref)] }) ∨
    ((MTNMobileMoney.initiate_payment env a ref db).1.success = false ∧
      (MTNMobileMoney.initiate_payment env a ref db).2 = db) := by
  simp only [MTNMobileMoney.initiate_payment]
  split
  · exact .inr ⟨rfl, rfl⟩
  · split
    · rcases create_transaction_record_cases .employer_payment a ref "MTN Mobile Money"
        (some ref) db with ⟨hany, heq⟩ | ⟨hany, heq⟩
      · rw [heq]
        exact .inl ⟨hany, rfl, rfl⟩
      · rw [heq]
        exact .inr ⟨rfl, rfl⟩
    · exact .inr ⟨rfl, rfl⟩

theorem airtel_initiate_cases (env : ProviderEnv) (a : Int) (ref : String) (db : DB) :
    (db.transactions.any (fun t => t.external_reference == ref) = false ∧
      (AirtelMoney.initiate_payment env a ref db).1.success = true ∧
      (AirtelMoney.initiate_payment env a ref db).2 =
        { db with transactions :=
            db.transactions ++ [freshTxnRecord .employer_payment a ref "Airtel Money" env.txnId] }) ∨
    ((AirtelMoney.initiate_payment env a ref db).1.success = false ∧
      (AirtelMoney.initiate_payment env a ref db).2 = db) := by
  simp only [AirtelMoney.initiate_payment]
  split
  · exact .inr ⟨rfl, rfl⟩
  · split
    · rcases create_transaction_record_cases .employer_payment a ref "Airtel Money"
        env.txnId db with ⟨hany, heq⟩ | ⟨hany, heq⟩
      · rw [heq]
        exact .inl ⟨hany, rfl, rfl⟩
      · rw [heq]
        exact .inr ⟨rfl, rfl⟩
    · exact .inr ⟨rfl, rfl⟩

theorem flutterwave_initiate_cases (env : ProviderEnv) (a : Int) (ref : String) (db : DB) :
    (db.transactions.any (fun t => t.external_reference == ref) = false ∧
      (FlutterwaveGateway.initiate_payment env a ref db).1.success = true ∧
      (FlutterwaveGateway.initiate_payment env a ref db).2 =
        { db with transactions :=
            db.transactions ++ [freshTxnRecord .employer_payment a ref "Flutterwave" (some ref)] }) ∨
    ((FlutterwaveGateway.initiate_payment env a ref db).1.success = false ∧
      (FlutterwaveGateway.initiate_payment env a ref db).2 = db) := by
  simp only [FlutterwaveGateway.initiate_payment]
  split
  · exact .inr ⟨rfl, rfl⟩
  · split
    · rcases create_transaction_record_cases .employer_payment a ref "Flutterwave"
        (some ref) db with ⟨hany, heq⟩ | ⟨hany, heq⟩
      · rw [heq]
        exact .inl ⟨hany, rfl, rfl⟩
      · rw [heq]
        exact .inr ⟨rfl, rfl⟩
    · exact .inr ⟨rfl, rfl⟩

theorem mtn_disburse_cases (env : ProviderEnv) (a : Int) (ref : String) (db : DB) :
    (db.transactions.any (fun t => t.external_reference == ref) = false ∧
      (MTNMobileMoney.disburse_payment env a ref db).1.success = true ∧
      (MTNMobileMoney.disburse_payment env a ref db).2 =
        { db with transactions :=
            db.transactions ++ [freshTxnRecord .worker_disbursement a ref "MTN Mobile Money" (some ref)] }) ∨
    ((MTNMobileMoney.disburse_payment env a ref db).1.success = false ∧
      (MTNMobileMoney.disburse_payment env a ref db).2 = db) := by
  simp only [MTNMobileMoney.disburse_payment]
  split
  · exact .inr ⟨rfl, rfl⟩
  · split
    · rcases create_transaction_record_cases .worker_disbursement a ref "MTN Mobile Money"
        (some ref) db with ⟨hany, heq⟩ | ⟨hany, heq⟩
      · rw [heq]
        exact .inl ⟨hany, rfl, rfl⟩
      · rw [heq]
        exact .inr ⟨rfl, rfl⟩
    · exact .inr ⟨rfl, rfl⟩

theorem forall₂_take {α : Type} {R : α → α → Prop} :
    ∀ (n : Nat) {l l' : List α}, List.Forall₂ R l l' →
      List.Forall₂ R (l.take n) (l'.take n) := by
  intro n
  induction n with
  | zero =>
    intro l l' _
    simp
  | succ m ih =>
    intro l l' h
    cases h with
    | nil => exact .nil
    | cons hx hxs =>
      rw [List.take_succ_cons, List.take_succ_cons]
      exact .cons hx (ih hxs)

/-- Common consequence of the per-gateway case analyses: the success/failure
discipline of one `initiate_payment`/`disburse_payment` call for a
reference. -/
theorem initiateReferenceSpec {success : Bool} {db db' : DB} {ref : String}
    {rec : PaymentTransaction} (hrec : rec.external_reference = ref)
    (hcases :
      (db.transactions.any (fun t => t.external_reference == ref) = false ∧
        success = true ∧ db' = { db with transactions := db.transactions ++ [rec] }) ∨
      (success = false ∧ db' = db)) :
    (success = true →
      db.transactions.countP (fun t => t.external_reference == ref) = 0 ∧
      db'.transactions.countP (fun t => t.external_reference == ref) = 1) ∧
    (success = false → db' = db) ∧
    (db.transactions.any (fun t => t.external_reference == ref) = true →
      success = false ∧ db' = db) := by
  rcases hcases with ⟨hany, hs, hdb⟩ | ⟨hs, hdb⟩
  · have hzero : db.transactions.countP (fun t => t.external_reference == ref) = 0 := by
      rw [List.countP_eq_zero]
      intro a ha
      have := List.any_eq_false.mp hany a ha
      simpa using this
    refine ⟨fun _ => ⟨hzero, ?_⟩, fun hfalse => by simp [hs] at hfalse,
      fun hany2 => by simp [hany] at hany2⟩
    rw [hdb]
    simp only [List.countP_append, hzero, Nat.zero_add]
    simp [List.countP, List.countP.go, hrec]
  · exact ⟨fun htrue => by simp [hs] at htrue, fun _ => hdb, fun _ => ⟨hs, hdb⟩⟩

/-- C1 counterexample: a collection call whose provider request fails (HTTP
500) returns after creating no ledger row at all, so "exactly one
PaymentTransaction row with that reference exists after the call returns" is
false for that call. -/
theorem C1_counterexample_failed_call_creates_no_row :
    (MTNMobileMoney.initiate_payment envHttp500 400000 "INV-2024-03-ABCD1234" emptyDB).1.success
        = false ∧
    (MTNMobileMoney.initiate_payment envHttp500 400000 "INV-2024-03-ABCD1234"
          emptyDB).2.transactions.countP
        (fun t => t.external_reference == "INV-2024-03-ABCD1234") ≠ 1 := by
  constructor
  · rfl
  · decide

/-- C1 (amended): for each of the three gateways, a call that returns success
starts from a ledger with no row for the reference and leaves exactly one row
for it; a call made while a row for the reference already exists is rejected
with a non-success result and changes nothing; and any non-success call leaves
the database untouched (in particular it creates no row). -/
theorem C1_initiate_payment_reference_idempotency :
    ∀ (env : ProviderEnv) (amount : Int) (reference : String) (db : DB),
      (((MTNMobileMoney.initiate_payment env amount reference db).1.success = true →
          db.transactions.countP (fun t => t.external_reference == reference) = 0 ∧
          (MTNMobileMoney.initiate_payment env amount reference db).2.transactions.countP
            (fun t => t.external_reference == reference) = 1) ∧
        ((MTNMobileMoney.initiate_payment env amount reference db).1.success = false →
          (MTNMobileMoney.initiate_payment env amount reference db).2 = db) ∧
        (db.transactions.any (fun t => t.external_reference == reference) = true →
          (MTNMobileMoney.initiate_payment env amount reference db).1.success = false ∧
          (MTNMobileMoney.initiate_payment env amount reference db).2 = db)) ∧
      (((AirtelMoney.initiate_payment env amount reference db).1.success = true →
          db.transactions.countP (fun t => t.external_reference == reference) = 0 ∧
          (AirtelMoney.initiate_payment env amount reference db).2.transactions.countP
            (fun t => t.external_reference == reference) = 1) ∧
        ((AirtelMoney.initiate_payment env amount reference db).1.success = false →
          (AirtelMoney.initiate_payment env amount reference db).2 = db) ∧
        (db.transactions.any (fun t => t.external_reference == reference) = true →
          (AirtelMoney.initiate_payment env amount reference db).1.success = false ∧
          (AirtelMoney.initiate_payment env amount reference db).2 = db)) ∧
      (((FlutterwaveGateway.initiate_payment env amount reference db).1.success = true →
          db.transactions.countP (fun t => t.external_reference == reference) = 0 ∧
          (FlutterwaveGateway.initiate_payment env amount reference db).2.transactions.countP
            (fun t => t.external_reference == reference) = 1) ∧
        ((FlutterwaveGateway.initiate_payment env amount reference db).1.success = false →
          (FlutterwaveGateway.initiate_payment env amount reference db).2 = db) ∧
        (db.transactions.any (fun t => t.external_reference == reference) = true →
          (FlutterwaveGateway.initiate_payment env amount reference db).1.success = false ∧
          (FlutterwaveGateway.initiate_payment env amount reference db).2 = db)) := by
  intro env amount reference db
  refine ⟨?_, ?_, ?_⟩
  · exact initiateReferenceSpec rfl
      ((mtn_initiate_cases env amount reference db).imp
        (fun h => ⟨h.1, h.2.1, h.2.2⟩) (fun h => ⟨h.1, h.2⟩))
  · exact initiateReferenceSpec rfl
      ((airtel_initiate_cases env amount reference db).imp
        (fun h => ⟨h.1, h.2.1, h.2.2⟩) (fun h => ⟨h.1, h.2⟩))
  · exact initiateReferenceSpec rfl
      ((flutterwave_initiate_cases env amount reference db).imp
        (fun h => ⟨h.1, h.2.1, h.2.2⟩) (fun h => ⟨h.1, h.2⟩))

/-- C1 witness: a successful first call for a fresh reference leaves exactly
one ledger row for it. -/
theorem C1_initiate_payment_reference_idempotency_witness :
    emptyDB.transactions.countP (fun t => t.external_reference == "INV-W") = 0 ∧
    (MTNMobileMoney.initiate_payment envHttp200 400000 "INV-W" emptyDB).2.transactions.countP
      (fun t => t.external_reference == "INV-W") = 1 :=
  (C1_initiate_payment_reference_idempotency envHttp200 400000 "INV-W" emptyDB).1.1 (by decide)

/-- C8 counterexample: the contracts-service fee calculator's no-config
fallback is `max(int(salary * 0.25), 100000)` — at salary 100000 it returns
100000, not `floor(100000 × 0.25) = 25000`, so a minimum clamp is applied. -/
theorem C8_counterexample_contracts_fallback_is_clamped :
    ContractsFeeCalculator.calculate_service_fee none 100000 = 100000 ∧
    ContractsFeeCalculator.calculate_service_fee none 100000 ≠ Int.fdiv 100000 4 := by
  constructor
  · rfl
  · decide

/-- C8 (amended): for every non-negative salary, the payments-service
calculator's fallback is exactly `floor(salary × 0.25)` with no clamp, while
the contracts-service calculator's fallback is `floor(salary × 0.25)` raised
to a minimum of 100000. -/
theorem C8_fee_calculator_fallback :
    ∀ salary : Int, 0 ≤ salary →
      PaymentsFeeCalculator.calculate_service_fee none salary = .ok (Int.fdiv salary 4) ∧
      ContractsFeeCalculator.calculate_service_fee none salary =
        max (Int.fdiv salary 4) 100000 := by
  intro s hs
  have h4 : Int.tdiv s 4 = Int.fdiv s 4 :=
    (Int.fdiv_eq_tdiv hs (by norm_num)).symm
  constructor
  · simp [PaymentsFeeCalculator.calculate_service_fee, pyIntQuarter, h4]
  · simp [ContractsFeeCalculator.calculate_service_fee, pyIntQuarter, h4]

/-- C8 witness: the fallbacks at salary 1000003. -/
theorem C8_fee_calculator_fallback_witness :
    PaymentsFeeCalculator.calculate_service_fee none 1000003 = .ok (Int.fdiv 1000003 4) ∧
    ContractsFeeCalculator.calculate_service_fee none 1000003 =
      max (Int.fdiv 1000003 4) 100000 :=
  C8_fee_calculator_fallback 1000003 (by norm_num)

/-- C10: invoked on any day other than the 15th, the invoice-generation task
returns a `skipped` result and leaves the database exactly as it was, and the
admin generate-invoices endpoint (which delegates to the same task after its
own already-generated guard) likewise changes nothing and answers with either
the 400 guard response or the relayed skipped result. -/
theorem C10_generate_invoices_calendar_gated :
    ∀ (today : PyDate) (db : DB) (cycle : PayrollCycle), today.day ≠ 15 →
      generate_monthly_invoices today db =
        (.ok { status := "skipped", reason := some "Not invoice generation day" }, db) ∧
      (PayrollCycleViewSet.generate_invoices cycle today db).2 = db ∧
      ((PayrollCycleViewSet.generate_invoices cycle today db).1 = .ok ⟨400, none⟩ ∨
        (PayrollCycleViewSet.generate_invoices cycle today db).1 =
          .ok ⟨200, some { status := "skipped", reason := some "Not invoice generation day" }⟩) := by
  intro today db cycle h
  have htask : generate_monthly_invoices today db =
      (.ok { status := "skipped", reason := some "Not invoice generation day" }, db) := by
    simp only [generate_monthly_invoices]
    rw [if_pos h]
  refine ⟨htask, ?_, ?_⟩
  · simp only [PayrollCycleViewSet.generate_invoices]
    split
    · rfl
    · rw [htask]
  · simp only [PayrollCycleViewSet.generate_invoices]
    split
    · exact .inl rfl
    · rw [htask]
      exact .inr rfl

/-- C10 witness: the 14th of March 2024, on a database with one transaction
and a fully-flagged cycle. -/
theorem C10_generate_invoices_calendar_gated_witness :
    generate_monthly_invoices ⟨2024, 3, 14⟩ c3DB =
      (.ok { status := "skipped", reason := some "Not invoice generation day" }, c3DB) ∧
    (PayrollCycleViewSet.generate_invoices c10Cycle ⟨2024, 3, 14⟩ c3DB).2 = c3DB ∧
    ((PayrollCycleViewSet.generate_invoices c10Cycle ⟨2024, 3, 14⟩ c3DB).1 = .ok ⟨400, none⟩ ∨
      (PayrollCycleViewSet.generate_invoices c10Cycle ⟨2024, 3, 14⟩ c3DB).1 =
        .ok ⟨200, some { status := "skipped", reason := some "Not invoice generation day" }⟩) :=
  C10_generate_invoices_calendar_gated ⟨2024, 3, 14⟩ c3DB c10Cycle (by decide)

/-- C3: the MTN handler accepts and fully processes a payload with an absent
signature (`is_valid` is hard-coded `True`), answering 200 and marking the
transaction FAILED; the Airtel handler reads no signature at all and does the
same; only the Flutterwave handler rejects a wrong `verifi-hash` with a 403
and no state change. -/
theorem C3_unverified_webhook_payloads_are_processed :
    (mtn_webhook none (some c3MtnEvent) c3DB).1 = .ok ⟨200⟩ ∧
    (mtn_webhook none (some c3MtnEvent) c3DB).2.transactions =
      [{ c3Txn with status := .failed }] ∧
    (mtn_webhook none (some c3MtnEvent) c3DB).2 ≠ c3DB ∧
    (airtel_webhook (some c3AirtelEvent) c3DB).1 = .ok ⟨200⟩ ∧
    (airtel_webhook (some c3AirtelEvent) c3DB).2.transactions =
      [{ c3Txn with status := .failed }] ∧
    flutterwave_webhook (some "wrong") "secret-hash" (some c3FwEvent) c3DB =
      (.ok ⟨403⟩, c3DB) := by
  refine ⟨?_, ?_, ?_, ?_, ?_, ?_⟩ <;> decide

/-- C4: polling a transaction whose status checks keep answering `pending`
raises an uncaught `NameError` on the first `time.sleep(retry_delay)`
(`payments/service.py` never imports `time`): the task crashes after one
attempt instead of returning the documented
`{"success": False, "status": "timeout"}`, and the transaction is left
PENDING only because nothing was ever written. -/
theorem C4_poller_crashes_on_missing_time_import :
    poll_payment_status "mtn" (fun _ => "pending") "TX-1" c4DB =
      (.error (.nameError "name time is not defined"), c4DB) ∧
    (poll_payment_status "mtn" (fun _ => "pending") "TX-1" c4DB).1 ≠
      .ok { success := false, status := some "timeout" } ∧
    c4DB.transactions.map (fun t => t.status) = [TransactionStatus.pending] := by
  refine ⟨?_, ?_, ?_⟩ <;> decide

/-- C5 counterexample: for an employer whose phone matches neither
mobile-money prefix and who has no email, `process_employer_payment` raises a
`ValueError` instead of returning a structured error value (the invoice and
ledger are nevertheless untouched). -/
theorem C5_counterexample_unroutable_employer_raises :
    PaymentWorkflow.process_employer_payment envHttp200 c5Invoice c5DB =
      (.error (.valueError "Unsupported provider for phone"), c5DB) := by
  decide

/-- C5 (amended): when the employer's phone matches no prefix and there is no
email, `process_employer_payment` raises a `ValueError` (rather than returning
a value), leaving the database — invoice and ledger included — untouched; and
whenever it returns a non-success result, the database is likewise exactly as
it was (no PaymentTransaction row is created and the invoice is unchanged). -/
theorem C5_process_employer_payment_failure_frame :
    ∀ (env : ProviderEnv) (invoice : EmployerInvoice) (db : DB),
      (PaymentWorkflow.detect_provider invoice.employer.phone = "unknown" →
        invoice.employer.email = "" →
        PaymentWorkflow.process_employer_payment env invoice db =
          (.error (.valueError "Unsupported provider for phone"), db)) ∧
      (∀ r db', PaymentWorkflow.process_employer_payment env invoice db = (.ok r, db') →
        r.success = false → db' = db) := by
  intro env invoice db
  constructor
  · intro hprov hemail
    simp [PaymentWorkflow.process_employer_payment, hprov, hemail]
  · intro r db' heq hfail
    simp only [PaymentWorkflow.process_employer_payment] at heq
    split at heq
    next hnone =>
      simp at heq
    next result db1 hsome =>
      split at heq
      next hsucc =>
        cases heq
        simp at hfail
      next hsucc =>
        cases heq
        split at hsome
        next =>
          have h := Option.some.inj hsome
          rcases mtn_initiate_cases env invoice.total_amount invoice.invoice_number db with
            ⟨_, hs, _⟩ | ⟨_, hdb⟩
          · have hfst : (MTNMobileMoney.initiate_payment env invoice.total_amount invoice.invoice_number db).1 = r :=
              congrArg Prod.fst h
            rw [hfst] at hs
            exact absurd hs hsucc
          · have hsnd : (MTNMobileMoney.initiate_payment env invoice.total_amount invoice.invoice_number db).2 = db' :=
              congrArg Prod.snd h
            exact hsnd.symm.trans hdb
        next =>
          split at hsome
          next =>
            have h := Option.some.inj hsome
            rcases airtel_initiate_cases env invoice.total_amount invoice.invoice_number db with
              ⟨_, hs, _⟩ | ⟨_, hdb⟩
            · have hfst : (AirtelMoney.initiate_payment env invoice.total_amount invoice.invoice_number db).1 = r :=
                congrArg Prod.fst h
              rw [hfst] at hs
              exact absurd hs hsucc
            · have hsnd : (AirtelMoney.initiate_payment env invoice.total_amount invoice.invoice_number db).2 = db' :=
                congrArg Prod.snd h
              exact hsnd.symm.trans hdb
          next =>
            split at hsome
            next =>
              have h := Option.some.inj hsome
              rcases flutterwave_initiate_cases env invoice.total_amount invoice.invoice_number db
                with ⟨_, hs, _⟩ | ⟨_, hdb⟩
              · have hfst : (FlutterwaveGateway.initiate_payment env invoice.total_amount invoice.invoice_number db).1 = r :=
                  congrArg Prod.fst h
                rw [hfst] at hs
                exact absurd hs hsucc
              · have hsnd : (FlutterwaveGateway.initiate_payment env invoice.total_amount invoice.invoice_number db).2 = db' :=
                  congrArg Prod.snd h
                exact hsnd.symm.trans hdb
            next =>
              cases hsome

/-- C5 witness: the amended raise clause at the concrete unroutable
employer. -/
theorem C5_process_employer_payment_failure_frame_witness :
    PaymentWorkflow.process_employer_payment envHttp500 c5Invoice c5DB =
      (.error (.valueError "Unsupported provider for phone"), c5DB) :=
  (C5_process_employer_payment_failure_frame envHttp500 c5Invoice c5DB).1 (by decide) rfl

/-- Case analysis of the workflow disbursement for an MTN mobile-money
payment: either the gateway call succeeded and the payment was set to
PROCESSING, or it failed and the workflow returned the failure with the
database untouched. -/
theorem disburse_worker_salary_mtn_cases (env : ProviderEnv) (p : WorkerPayment) (db : DB)
    (hm : p.payment_method = .mobile_money_mtn) :
    ((MTNMobileMoney.disburse_payment env p.net_amount p.payment_reference db).1.success = true ∧
      PaymentWorkflow.disburse_worker_salary env p db =
        (.ok (MTNMobileMoney.disburse_payment env p.net_amount p.payment_reference db).1,
          updateWorkerPayment
            (MTNMobileMoney.disburse_payment env p.net_amount p.payment_reference db).2
            p.payment_reference (fun q => { q with status := .processing }))) ∨
    ((MTNMobileMoney.disburse_payment env p.net_amount p.payment_reference db).1.success = false ∧
      PaymentWorkflow.disburse_worker_salary env p db =
        (.ok (MTNMobileMoney.disburse_payment env p.net_amount p.payment_reference db).1, db)) := by
  rcases mtn_disburse_cases env p.net_amount p.payment_reference db with ⟨_, hs, _⟩ | ⟨hs, hdb⟩
  · left
    refine ⟨hs, ?_⟩
    simp only [PaymentWorkflow.disburse_worker_salary, hm]
    rw [if_pos hs]
  · right
    refine ⟨hs, ?_⟩
    simp only [PaymentWorkflow.disburse_worker_salary, hm]
    rw [if_neg (by simp [hs]), hdb]

/-- C7 counterexample: after a failed MTN disbursement for a never-retried
payment, the task's failure handling sets FAILED and the reason, but the
retry count is not incremented. -/
theorem C7_counterexample_retry_count_not_incremented :
    (disburseWorkerSalaryAttempt envHttp500 c7Payment c7DB).2.worker_payments =
      [{ c7Payment with status := .failed, failure_reason := some "API Error" }] ∧
    ¬ ({ c7Payment with status := PaymentStatus.failed, failure_reason := some "API Error" } : WorkerPayment).retry_count =
        c7Payment.retry_count + 1 := by
  constructor
  · decide
  · decide

/-- C7 (amended): whenever a worker-salary disbursement attempt returns a
non-success gateway result, the per-payment failure handling of the
disbursement task sets the WorkerPayment's status to FAILED and records the
result's error as `failure_reason`, but leaves `retry_count` unchanged; the
`mark_as_failed` model method, which does increment `retry_count`, is never
invoked by any caller in the repository. -/
theorem C7_disbursement_failure_handling :
    ∀ (env : ProviderEnv) (p : WorkerPayment) (db : DB) (r : GatewayResult) (db' : DB),
      db.worker_payments.find? (fun q => q.payment_reference == p.payment_reference) = some p →
      disburseWorkerSalaryAttempt env p db = (.ok r, db') →
      r.success = false →
      (db'.worker_payments.find? (fun q => q.payment_reference == p.payment_reference) =
          some { p with status := .failed, failure_reason := r.error } ∧
        ({ p with status := PaymentStatus.failed, failure_reason := r.error } : WorkerPayment).retry_count = p.retry_count) ∧
      (∀ (q : WorkerPayment) (reason : String),
        (WorkerPayment.mark_as_failed q reason).retry_count = q.retry_count + 1) := by
  intro env p db r db' hfind heq hfail
  refine ⟨?_, fun q reason => rfl⟩
  cases hm : p.payment_method with
  | mobile_money_mtn =>
    rcases disburse_worker_salary_mtn_cases env p db hm with ⟨hs, hw⟩ | ⟨hs, hw⟩
    · simp only [disburseWorkerSalaryAttempt, hw] at heq
      rw [if_pos hs] at heq
      cases heq
      simp [hs] at hfail
    · simp only [disburseWorkerSalaryAttempt, hw] at heq
      rw [if_neg (by simp [hs])] at heq
      cases heq
      refine ⟨?_, rfl⟩
      simp only [updateWorkerPayment]
      have hres := find?_updateFirst_self
        (fun q => q.payment_reference == p.payment_reference)
        (fun q =>
          { q with
            status := PaymentStatus.failed
            failure_reason :=
              (MTNMobileMoney.disburse_payment env p.net_amount p.payment_reference db).1.error })
        (fun a => rfl) db.worker_payments p hfind
      simp only [hm] at hres
      exact hres
  | mobile_money_airtel =>
    simp only [disburseWorkerSalaryAttempt, PaymentWorkflow.disburse_worker_salary, hm] at heq
    simp at heq
  | bank_transfer =>
    have hbank : disburseWorkerSalaryAttempt env p db =
        (.ok { success := true, status := "pending", message := some "Bank transfer initiated" },
          updateWorkerPayment db p.payment_reference
            (fun q => { q with status := .processing })) := by
      simp only [disburseWorkerSalaryAttempt, PaymentWorkflow.disburse_worker_salary, hm]
      rfl
    rw [hbank] at heq
    cases heq
    simp at hfail
  | cash_pickup =>
    have hcash : disburseWorkerSalaryAttempt env p db =
        (.ok { success := true, status := "pending", message := some "Cash pickup voucher generated" },
          updateWorkerPayment db p.payment_reference
            (fun q => { q with status := .processing })) := by
      simp only [disburseWorkerSalaryAttempt, PaymentWorkflow.disburse_worker_salary, hm]
      rfl
    rw [hcash] at heq
    cases heq
    simp at hfail

/-- C7 witness: the amended failure handling at the concrete failed MTN
disbursement. -/
theorem C7_disbursement_failure_handling_witness :
    ((c7DB.worker_payments.find?
        (fun q => q.payment_reference == c7Payment.payment_reference) = some c7Payment) ∧
      ({ c7Payment with status := PaymentStatus.failed, failure_reason := some "API Error" } : WorkerPayment).retry_count =
        c7Payment.retry_count) ∧
    (∀ (q : WorkerPayment) (reason : String),
      (WorkerPayment.mark_as_failed q reason).retry_count = q.retry_count + 1) := by
  have h := C7_disbursement_failure_handling envHttp500 c7Payment c7DB
    { success := false, status := "failed", error := some "API Error" }
    { c7DB with worker_payments :=
        [{ c7Payment with status := .failed, failure_reason := some "API Error" }] }
    (by decide) (by decide) rfl
  exact ⟨⟨by decide, h.1.2⟩, h.2⟩

theorem pyClampMinFee_lb (m fee : Int) (hm : 0 < m) : m ≤ pyClampMinFee (some m) fee := by
  simp only [pyClampMinFee]
  split
  · exact le_refl m
  · next h =>
    push_neg at h
    exact h (by omega)

theorem pyClampMaxFee_ub (M fee : Int) (hM : M ≠ 0) : pyClampMaxFee (some M) fee ≤ M := by
  simp only [pyClampMaxFee]
  split
  · exact le_refl M
  · next h =>
    push_neg at h
    exact h hM

theorem pyClampMaxFee_lb (M fee b : Int) (hfee : b ≤ fee) (hbM : b ≤ M) :
    b ≤ pyClampMaxFee (some M) fee := by
  simp only [pyClampMaxFee]
  split
  · exact hbM
  · exact hfee

theorem pyClampMinFee_nonneg (m? : Option Int) (fee : Int)
    (hm : ∀ m, m? = some m → 0 ≤ m) (hf : 0 ≤ fee) : 0 ≤ pyClampMinFee m? fee := by
  cases m? with
  | none => exact hf
  | some m =>
    simp only [pyClampMinFee]
    split
    · exact hm m rfl
    · exact hf

theorem pyClampMaxFee_nonneg (m? : Option Int) (fee : Int)
    (hm : ∀ m, m? = some m → 0 ≤ m) (hf : 0 ≤ fee) : 0 ≤ pyClampMaxFee m? fee := by
  cases m? with
  | none => exact hf
  | some m =>
    simp only [pyClampMaxFee]
    split
    · exact hm m rfl
    · exact hf

theorem calculate_tiered_fee_nonneg (tc : Option (List FeeTier)) (salary : Int)
    (h : ∀ ts, tc = some ts → ∀ t ∈ ts, 0 ≤ t.tfee.getD 0) :
    0 ≤ ContractsFeeCalculator.calculate_tiered_fee tc salary := by
  cases tc with
  | none => simp [ContractsFeeCalculator.calculate_tiered_fee]
  | some ts =>
    cases ts with
    | nil => simp [ContractsFeeCalculator.calculate_tiered_fee]
    | cons t0 rest =>
      simp only [ContractsFeeCalculator.calculate_tiered_fee]
      split
      · next t' hfind => exact h _ rfl t' (List.mem_of_find?_eq_some hfind)
      · next => exact h _ rfl _ (List.getLast_mem _)

/-- C9 counterexample: with `minimum_fee = 0` (set, but falsy in Python, so
the clamp is skipped) and a negative fixed amount, the computed fee for a
positive salary is negative and escapes the stored `[0, 100000]` range. -/
theorem C9_counterexample_zero_minimum_is_falsy :
    ContractsFeeCalculator.calculate_service_fee (some c9BadConfig) 300000 = -50000 ∧
    c9BadConfig.minimum_fee = some 0 ∧
    c9BadConfig.maximum_fee = some 100000 ∧
    ¬ 0 ≤ ContractsFeeCalculator.calculate_service_fee (some c9BadConfig) 300000 := by
  refine ⟨by decide, rfl, rfl, by decide⟩

/-- C9 (amended): the clamping guarantee holds when both limits are set to
positive values in the right order — for every positive salary and every
config with `minimum_fee = m > 0` and `maximum_fee = M ≥ m`, the computed fee
lies within `[m, M]`; and the fee is non-negative for every non-negative
salary whenever the config's fee parameters (fixed amount, percentage, tier
fees, limits) are themselves non-negative.  (A stored minimum of 0 is falsy
and skipped, and negative parameters flow through — see the
counterexample.) -/
theorem C9_fee_clamping :
    (∀ (cfg : ServiceFeeConfig) (salary m M : Int), 0 < salary →
      cfg.minimum_fee = some m → cfg.maximum_fee = some M → 0 < m → m ≤ M →
      m ≤ ContractsFeeCalculator.calculate_service_fee (some cfg) salary ∧
        ContractsFeeCalculator.calculate_service_fee (some cfg) salary ≤ M) ∧
    (∀ (cfg : ServiceFeeConfig) (salary : Int), 0 ≤ salary → FeeParamsNonneg cfg →
      0 ≤ ContractsFeeCalculator.calculate_service_fee (some cfg) salary) := by
  constructor
  · intro cfg salary m M hsal hm hM hm0 hmM
    simp only [ContractsFeeCalculator.calculate_service_fee, hm, hM]
    constructor
    · exact pyClampMaxFee_lb M _ m (pyClampMinFee_lb m _ hm0) hmM
    · exact pyClampMaxFee_ub M _ (by omega)
  · intro cfg salary hs h
    obtain ⟨h1, h2, h3, h4, h5⟩ := h
    simp only [ContractsFeeCalculator.calculate_service_fee]
    apply pyClampMaxFee_nonneg _ _ h5
    apply pyClampMinFee_nonneg _ _ h4
    cases hft : cfg.fee_type with
    | fixed_amount =>
      cases hfa : cfg.fixed_amount with
      | none => simp
      | some v => simpa using h1 v hfa
    | percentage =>
      cases hp : cfg.percentage100 with
      | none => simp
      | some p0 =>
        simp only [pyPercentageFee]
        split
        · exact Int.tdiv_nonneg (mul_nonneg hs (h2 p0 hp)) (by norm_num)
        · norm_num
    | tiered => exact calculate_tiered_fee_nonneg _ _ h3

/-- C9 witness: the 25% config clamped to `[100000, 200000]` at salary
300000. -/
theorem C9_fee_clamping_witness :
    (100000 ≤ ContractsFeeCalculator.calculate_service_fee (some c9PercentConfig) 300000 ∧
      ContractsFeeCalculator.calculate_service_fee (some c9PercentConfig) 300000 ≤ 200000) ∧
    0 ≤ ContractsFeeCalculator.calculate_service_fee (some c9PercentConfig) 300000 := by
  constructor
  · exact C9_fee_clamping.1 c9PercentConfig 300000 100000 200000 (by decide) rfl rfl
      (by decide) (by decide)
  · refine C9_fee_clamping.2 c9PercentConfig 300000 (by decide) ⟨?_, ?_, ?_, ?_, ?_⟩
    · intro v h
      simp [c9PercentConfig] at h
    · intro p h
      simp [c9PercentConfig] at h
      omega
    · intro ts h
      simp [c9PercentConfig] at h
    · intro m h
      simp [c9PercentConfig] at h
      omega
    · intro M h
      simp [c9PercentConfig] at h
      omega

theorem flagsMono_refl (a : PayrollCycle) : FlagsMono a a :=
  ⟨id, id, id⟩

theorem flagsMono_take_refl (l : List PayrollCycle) :
    List.Forall₂ FlagsMono l (l.take l.length) := by
  rw [List.take_length]
  exact List.forall₂_same.mpr (fun a _ => flagsMono_refl a)

theorem find?_append_of_none {α : Type} (p : α → Bool) (l1 l2 : List α)
    (h : l1.find? p = none) : (l1 ++ l2).find? p = l2.find? p := by
  induction l1 with
  | nil => rfl
  | cons x xs ih =>
    cases hpx : p x
    · rw [List.find?_cons_of_neg _ (by simp [hpx])] at h
      rw [List.cons_append, List.find?_cons_of_neg _ (by simp [hpx])]
      exact ih h
    · rw [List.find?_cons_of_pos _ (by simp [hpx])] at h
      cases h

/-- Saving one cycle whose flags dominate those of whichever row it overwrites
is flag-monotone across the whole table. -/
theorem saveCycle_flags_mono (db : DB) (cfinal : PayrollCycle)
    (h : ∀ a, db.cycles.find?
        (fun x => x.month == cfinal.month && x.year == cfinal.year) = some a →
      FlagsMono a cfinal) :
    List.Forall₂ FlagsMono db.cycles ((saveCycle db cfinal).cycles) := by
  simp only [saveCycle]
  exact forall₂_updateFirst flagsMono_refl _ _ _ h

/-- The invoice-generation loop never touches the cycle table. -/
theorem invoiceGenerationLoop_cycles (today : PyDate) :
    ∀ (cs : List Contract) (db : DB) (cycle : PayrollCycle) (count : Nat),
      ((invoiceGenerationLoop today cs db cycle count).2).cycles = db.cycles := by
  intro cs
  induction cs with
  | nil => intro db cycle count; rfl
  | cons c rest ih =>
    intro db cycle count
    simp only [invoiceGenerationLoop]
    split
    · exact ih db cycle count
    · split
      · rfl
      · exact ih _ _ _

/-- The invoice-generation loop only accumulates totals: the identifying pair
and the three milestone flags of the in-memory cycle are unchanged. -/
theorem invoiceGenerationLoop_cycle_fields (today : PyDate) :
    ∀ (cs : List Contract) (db : DB) (cycle : PayrollCycle) (count : Nat)
      (cyc' : PayrollCycle) (n : Nat),
      (invoiceGenerationLoop today cs db cycle count).1 = .ok (cyc', n) →
      cyc'.month = cycle.month ∧ cyc'.year = cycle.year ∧
      cyc'.invoices_generated = cycle.invoices_generated ∧
      cyc'.payments_processed = cycle.payments_processed ∧
      cyc'.cycle_closed = cycle.cycle_closed := by
  intro cs
  induction cs with
  | nil =>
    intro db cycle count cyc' n h
    cases h
    exact ⟨rfl, rfl, rfl, rfl, rfl⟩
  | cons c rest ih =>
    intro db cycle count cyc' n h
    simp only [invoiceGenerationLoop] at h
    split at h
    · exact ih _ _ _ _ _ h
    · split at h
      · cases h
      · have hrec := ih _ _ _ _ _ h
        exact ⟨hrec.1, hrec.2.1, hrec.2.2.1, hrec.2.2.2.1, hrec.2.2.2.2⟩

/-- C2 counterexample: `mark_as_paid` transitions even a CANCELLED invoice —
a terminal state — straight to PAID. -/
theorem C2_counterexample_mark_as_paid_on_cancelled :
    c2CancelledInvoice.status = .cancelled ∧
    (EmployerInvoice.mark_as_paid c2CancelledInvoice "mtn" "TXN-99").status = .paid ∧
    (EmployerInvoice.mark_as_paid c2CancelledInvoice "mtn" "TXN-99").status ≠
      c2CancelledInvoice.status := by
  refine ⟨rfl, rfl, by decide⟩

/-- C2 (amended): webhook processing, the status poller, and payment
initiation through the pay endpoint never change any invoice (in particular a
PAID or CANCELLED one) — the handlers touch only the transaction ledger, and
the pay endpoint answers 400 without side effects for any non-PENDING
invoice; the PayrollCycle flags `invoices_generated`, `payments_processed`
and `cycle_closed`, once true, are never set back to false by the
invoice-generation or disbursement task (and the webhook/poller paths never
touch cycles at all).  The admin `mark_as_paid` helper, however, is excluded:
it sets the status to PAID unconditionally, even on a CANCELLED invoice. -/
theorem C2_state_machine_monotonicity :
    (∀ (sig : Option String) (body : Option WebhookEvent) (db : DB),
      (mtn_webhook sig body db).2.invoices = db.invoices ∧
      (mtn_webhook sig body db).2.cycles = db.cycles) ∧
    (∀ (body : Option WebhookEvent) (db : DB),
      (airtel_webhook body db).2.invoices = db.invoices ∧
      (airtel_webhook body db).2.cycles = db.cycles) ∧
    (∀ (sig : Option String) (wh : String) (body : Option WebhookEvent) (db : DB),
      (flutterwave_webhook sig wh body db).2.invoices = db.invoices ∧
      (flutterwave_webhook sig wh body db).2.cycles = db.cycles) ∧
    (∀ (provider : String) (checks : Nat → String) (tid : String) (db : DB),
      (poll_payment_status provider checks tid db).2.invoices = db.invoices ∧
      (poll_payment_status provider checks tid db).2.cycles = db.cycles) ∧
    (∀ (env : ProviderEnv) (num : String) (db : DB) (inv : EmployerInvoice),
      db.invoices.find? (fun i => i.invoice_number == num) = some inv →
      (inv.status = .paid ∨ inv.status = .cancelled) →
      EmployerInvoiceViewSet.pay env num db = (.ok ⟨400, none⟩, db)) ∧
    (∀ (today : PyDate) (db : DB),
      List.Forall₂ FlagsMono db.cycles
        (((generate_monthly_invoices today db).2).cycles.take db.cycles.length)) ∧
    (∀ (today : PyDate) (db : DB),
      List.Forall₂ FlagsMono db.cycles
        (((disburse_worker_salaries today db).2).cycles.take db.cycles.length)) ∧
    (∀ (inv : EmployerInvoice) (pm tr : String),
      (EmployerInvoice.mark_as_paid inv pm tr).status = .paid) := by
  refine ⟨?_, ?_, ?_, ?_, ?_, ?_, ?_, ?_⟩
  · intro sig body db
    exact ⟨(mtn_webhook_txnOnly sig body db).2.1, (mtn_webhook_txnOnly sig body db).1⟩
  · intro body db
    exact ⟨(airtel_webhook_txnOnly body db).2.1, (airtel_webhook_txnOnly body db).1⟩
  · intro sig wh body db
    exact ⟨(flutterwave_webhook_txnOnly sig wh body db).2.1,
      (flutterwave_webhook_txnOnly sig wh body db).1⟩
  · intro provider checks tid db
    exact ⟨(poll_payment_status_txnOnly provider checks tid db).2.1,
      (poll_payment_status_txnOnly provider checks tid db).1⟩
  · intro env num db inv hfind hstat
    have hne : ¬ inv.status = InvoiceStatus.pending := by
      rcases hstat with h | h <;> simp [h]
    simp only [EmployerInvoiceViewSet.pay, hfind]
    rw [if_pos hne]
  · intro today db
    by_cases hday : today.day = 15
    · simp only [generate_monthly_invoices]
      rw [if_neg (by omega)]
      cases hgc : db.cycles.find? (fun c => c.month == today.month && c.year == today.year) with
      | some c0 =>
        have hget : getOrCreateCycle today.month today.year db = (c0, db) := by
          simp [getOrCreateCycle, hgc]
        rw [hget]
        have hc0 := List.find?_some hgc
        simp only [Bool.and_eq_true, beq_iff_eq] at hc0
        cases hloop : invoiceGenerationLoop today
            (db.contracts.filter (fun c => c.status == "active" && c.start_date.ble today))
            db c0 0 with
        | mk res db2 =>
          have h2 : db2.cycles = db.cycles := by
            have hl := invoiceGenerationLoop_cycles today
              (db.contracts.filter (fun c => c.status == "active" && c.start_date.ble today))
              db c0 0
            rw [hloop] at hl
            exact hl
          cases res with
          | error e =>
            simp only
            rw [h2]
            exact flagsMono_take_refl db.cycles
          | ok pr =>
            cases pr with
            | mk cyc' n =>
              simp only
              obtain ⟨hm, hy, hig, hpp, hcc⟩ := invoiceGenerationLoop_cycle_fields today
                _ db c0 0 cyc' n (by rw [hloop])
              have hfull : List.Forall₂ FlagsMono db2.cycles
                  ((saveCycle db2 { cyc' with invoices_generated := true, invoice_generation_date_set := true }).cycles) := by
                apply saveCycle_flags_mono
                intro a hfind
                dsimp only at hfind
                rw [h2] at hfind
                simp only [hm, hy, hc0.1, hc0.2] at hfind
                rw [hgc] at hfind
                cases hfind
                refine ⟨fun _ => rfl, fun hp => ?_, fun hc => ?_⟩
                · show cyc'.payments_processed = true
                  rw [hpp]
                  exact hp
                · show cyc'.cycle_closed = true
                  rw [hcc]
                  exact hc
              have htake := forall₂_take (R := FlagsMono) db.cycles.length hfull
              rw [h2, List.take_length] at htake
              exact htake
      | none =>
        have hget : getOrCreateCycle today.month today.year db =
            (defaultCycle today.month today.year,
              { db with cycles := db.cycles ++ [defaultCycle today.month today.year] }) := by
          simp [getOrCreateCycle, hgc]
        rw [hget]
        cases hloop : invoiceGenerationLoop today
            (db.contracts.filter (fun c => c.status == "active" && c.start_date.ble today))
            { db with cycles := db.cycles ++ [defaultCycle today.month today.year] }
            (defaultCycle today.month today.year) 0 with
        | mk res db2 =>
          have h2 : db2.cycles = db.cycles ++ [defaultCycle today.month today.year] := by
            have hl := invoiceGenerationLoop_cycles today
              (db.contracts.filter (fun c => c.status == "active" && c.start_date.ble today))
              { db with cycles := db.cycles ++ [defaultCycle today.month today.year] }
              (defaultCycle today.month today.year) 0
            rw [hloop] at hl
            exact hl
          cases res with
          | error e =>
            simp only
            rw [h2, List.take_left]
            exact List.forall₂_same.mpr (fun a _ => flagsMono_refl a)
          | ok pr =>
            cases pr with
            | mk cyc' n =>
              simp only
              obtain ⟨hm, hy, hig, hpp, hcc⟩ := invoiceGenerationLoop_cycle_fields today
                _ _ (defaultCycle today.month today.year) 0 cyc' n (by rw [hloop])
              have hfull : List.Forall₂ FlagsMono db2.cycles
                  ((saveCycle db2 { cyc' with invoices_generated := true, invoice_generation_date_set := true }).cycles) := by
                apply saveCycle_flags_mono
                intro a hfind
                dsimp only at hfind
                rw [h2] at hfind
                simp only [hm, hy, defaultCycle] at hfind
                rw [find?_append_of_none _ _ _ hgc] at hfind
                rw [List.find?_cons_of_pos _ (by simp [defaultCycle])] at hfind
                cases hfind
                exact ⟨fun h => by simp [defaultCycle] at h,
                  fun h => by simp [defaultCycle] at h,
                  fun h => by simp [defaultCycle] at h⟩
              have htake := forall₂_take (R := FlagsMono) db.cycles.length hfull
              rw [h2, List.take_left] at htake
              exact htake
    · have hskip : generate_monthly_invoices today db =
          (.ok { status := "skipped", reason := some "Not invoice generation day" }, db) := by
        simp only [generate_monthly_invoices]
        rw [if_pos hday]
      rw [hskip]
      exact flagsMono_take_refl db.cycles
  · intro today db
    simp only [disburse_worker_salaries]
    split
    · exact flagsMono_take_refl db.cycles
    · cases hgc : db.cycles.find? (fun c => c.month == today.month && c.year == today.year) with
      | none =>
        exact flagsMono_take_refl db.cycles
      | some cycle =>
        simp only
        have hc0 := List.find?_some hgc
        simp only [Bool.and_eq_true, beq_iff_eq] at hc0
        split
        · exact flagsMono_take_refl db.cycles
        · have hfull : List.Forall₂ FlagsMono db.cycles
              ((saveCycle db { cycle with payments_processed := true, payment_processing_date_set := true }).cycles) := by
            apply saveCycle_flags_mono
            intro a hfind
            dsimp only at hfind
            simp only [hc0.1, hc0.2] at hfind
            rw [hgc] at hfind
            cases hfind
            exact ⟨fun h => h, fun _ => rfl, fun h => h⟩
          have htake := forall₂_take (R := FlagsMono) db.cycles.length hfull
          rw [List.take_length] at htake
          exact htake
  · intro inv pm tr
    rfl

/-- C2 witness: the flag-monotonicity and invoice-preservation clauses at
concrete inputs. -/
theorem C2_state_machine_monotonicity_witness :
    ((mtn_webhook none (some c3MtnEvent) c3DB).2.invoices = c3DB.invoices ∧
      (mtn_webhook none (some c3MtnEvent) c3DB).2.cycles = c3DB.cycles) ∧
    EmployerInvoiceViewSet.pay envHttp200 "INV-2024-03-ABCD1234"
        { c5DB with invoices := [c2CancelledInvoice] } =
      (.ok ⟨400, none⟩, { c5DB with invoices := [c2CancelledInvoice] }) := by
  constructor
  · exact C2_state_machine_monotonicity.1 none (some c3MtnEvent) c3DB
  · exact C2_state_machine_monotonicity.2.2.2.2.1 envHttp200 "INV-2024-03-ABCD1234"
      { c5DB with invoices := [c2CancelledInvoice] } c2CancelledInvoice
      (by decide) (.inr rfl)

theorem findTxnByExternal_set_map (db : DB) (r : String) (s : TransactionStatus) (c : Bool)
    (tid? : Option String) :
    ((findTxnByExternal (setTransactionStatus db r s c) tid?).map
      (fun t => t.external_reference)) =
      (findTxnByExternal db tid?).map (fun t => t.external_reference) := by
  cases tid? with
  | none => rfl
  | some tid =>
    exact find?_updateFirst_map (fun t : PaymentTransaction => t.external_reference == tid)
      (fun t => t.external_reference == r)
      (fun t => { t with status := s, completed_at_set := c || t.completed_at_set })
      (fun t => t.external_reference) (fun a => rfl) (fun a => rfl) db.transactions

theorem findTxnByInternal_set_map (db : DB) (r : String) (s : TransactionStatus) (c : Bool)
    (tid? : Option String) :
    ((findTxnByInternal (setTransactionStatus db r s c) tid?).map
      (fun t => t.external_reference)) =
      (findTxnByInternal db tid?).map (fun t => t.external_reference) := by
  cases tid? with
  | none => rfl
  | some tid =>
    exact find?_updateFirst_map (fun t : PaymentTransaction => t.internal_reference == some tid)
      (fun t => t.external_reference == r)
      (fun t => { t with status := s, completed_at_set := c || t.completed_at_set })
      (fun t => t.external_reference) (fun a => rfl) (fun a => rfl) db.transactions

theorem webhookLookupMtn_set_map (db : DB) (r : String) (s : TransactionStatus) (c : Bool)
    (tid? : Option String) :
    ((webhookLookupMtn (setTransactionStatus db r s c) tid?).map
      (fun t => t.external_reference)) =
      (webhookLookupMtn db tid?).map (fun t => t.external_reference) := by
  simp only [webhookLookupMtn]
  have he := findTxnByExternal_set_map db r s c tid?
  have hi := findTxnByInternal_set_map db r s c tid?
  cases hx : findTxnByExternal db tid? with
  | some t =>
    rw [hx] at he
    simp only [Option.map_some'] at he
    rcases Option.map_eq_some'.mp he with ⟨t2, ht2, hext⟩
    rw [ht2]
    simp [hext]
  | none =>
    rw [hx] at he
    simp only [Option.map_none'] at he
    have hzero : findTxnByExternal (setTransactionStatus db r s c) tid? = none :=
      Option.map_eq_none'.mp he
    rw [hzero]
    exact hi

theorem setTransactionStatus_idem (db : DB) (r : String) (s : TransactionStatus) :
    setTransactionStatus (setTransactionStatus db r s false) r s false =
      setTransactionStatus db r s false := by
  simp only [setTransactionStatus]
  rw [updateFirst_idem (fun t : PaymentTransaction => t.external_reference == r)
    (fun t => { t with status := s, completed_at_set := false || t.completed_at_set })
    (fun a => rfl) (fun a => by simp) db.transactions]

/-- C6: webhook replay safety — applying the same parsed event twice yields
the same database as applying it once, for each of the three handlers; the
MTN handler (the one feeding collection confirmations) never creates or
removes WorkerPayment rows; and `schedule_worker_payment` never modifies the
database at all.  (A `FAILED` event is genuinely idempotent — the second
application re-marks the same ledger row FAILED; a `SUCCESSFUL` event changes
nothing on either application because the handler hits the nonexistent
`TransactionStatus.COMPLETED` member and aborts before writing.) -/
theorem C6_webhook_replay_idempotent :
    (∀ (sig : Option String) (body : Option WebhookEvent) (db : DB),
      (mtn_webhook sig body (mtn_webhook sig body db).2).2 = (mtn_webhook sig body db).2 ∧
      (mtn_webhook sig body db).2.worker_payments = db.worker_payments) ∧
    (∀ (body : Option WebhookEvent) (db : DB),
      (airtel_webhook body (airtel_webhook body db).2).2 = (airtel_webhook body db).2) ∧
    (∀ (sig : Option String) (wh : String) (body : Option WebhookEvent) (db : DB),
      (flutterwave_webhook sig wh body (flutterwave_webhook sig wh body db).2).2 =
        (flutterwave_webhook sig wh body db).2) ∧
    (∀ (num : String) (db : DB), (schedule_worker_payment num db).2 = db) := by
  refine ⟨?_, ?_, ?_, ?_⟩
  · intro sig body db
    refine ⟨?_, (mtn_webhook_txnOnly sig body db).2.2.1⟩
    cases body with
    | none =>
      have h1 : (mtn_webhook sig none db).2 = db := rfl
      rw [h1]
      exact h1
    | some ev =>
      cases hlk : webhookLookupMtn db ev.transaction_id with
      | none =>
        have h1 : (mtn_webhook sig (some ev) db).2 = db := by
          simp [mtn_webhook, hlk]
        rw [h1]
        exact h1
      | some t =>
        cases hS : ev.status == some "SUCCESSFUL" with
        | true =>
          have h1 : (mtn_webhook sig (some ev) db).2 = db := by
            simp [mtn_webhook, hlk, hS]
          rw [h1]
          exact h1
        | false =>
          cases hF : ev.status == some "FAILED" with
          | false =>
            have h1 : (mtn_webhook sig (some ev) db).2 = db := by
              simp [mtn_webhook, hlk, hS, hF]
            rw [h1]
            exact h1
          | true =>
            have h1 : (mtn_webhook sig (some ev) db).2 =
                setTransactionStatus db t.external_reference .failed false := by
              simp [mtn_webhook, hlk, hS, hF]
            have hmap := webhookLookupMtn_set_map db t.external_reference .failed false
              ev.transaction_id
            rw [hlk] at hmap
            simp only [Option.map_some'] at hmap
            rcases Option.map_eq_some'.mp hmap with ⟨t2, hlk2, hext⟩
            have h2 : (mtn_webhook sig (some ev)
                (setTransactionStatus db t.external_reference .failed false)).2 =
                setTransactionStatus
                  (setTransactionStatus db t.external_reference .failed false)
                  t2.external_reference .failed false := by
              simp [mtn_webhook, hlk2, hS, hF]
            rw [h1, h2, hext]
            exact setTransactionStatus_idem db t.external_reference .failed
  · intro body db
    cases body with
    | none =>
      have h1 : (airtel_webhook none db).2 = db := rfl
      rw [h1]
      exact h1
    | some ev =>
      cases hlk : findTxnByExternal db ev.transaction_id with
      | none =>
        have h1 : (airtel_webhook (some ev) db).2 = db := by
          simp [airtel_webhook, hlk]
        rw [h1]
        exact h1
      | some t =>
        cases hS : ev.status == some "TS" with
        | true =>
          have h1 : (airtel_webhook (some ev) db).2 = db := by
            simp [airtel_webhook, hlk, hS]
          rw [h1]
          exact h1
        | false =>
          cases hF : ev.status == some "TF" with
          | false =>
            have h1 : (airtel_webhook (some ev) db).2 = db := by
              simp [airtel_webhook, hlk, hS, hF]
            rw [h1]
            exact h1
          | true =>
            have h1 : (airtel_webhook (some ev) db).2 =
                setTransactionStatus db t.external_reference .failed false := by
              simp [airtel_webhook, hlk, hS, hF]
            have hmap := findTxnByExternal_set_map db t.external_reference .failed false
              ev.transaction_id
            rw [hlk] at hmap
            simp only [Option.map_some'] at hmap
            rcases Option.map_eq_some'.mp hmap with ⟨t2, hlk2, hext⟩
            have h2 : (airtel_webhook (some ev)
                (setTransactionStatus db t.external_reference .failed false)).2 =
                setTransactionStatus
                  (setTransactionStatus db t.external_reference .failed false)
                  t2.external_reference .failed false := by
              simp [airtel_webhook, hlk2, hS, hF]
            rw [h1, h2, hext]
            exact setTransactionStatus_idem db t.external_reference .failed
  · intro sig wh body db
    cases hsig : (sig == none || sig != some wh) with
    | true =>
      have h1 : (flutterwave_webhook sig wh body db).2 = db := by
        simp only [flutterwave_webhook]
        rw [if_pos hsig]
      rw [h1]
      exact h1
    | false =>
      cases body with
      | none =>
        have h1 : (flutterwave_webhook sig wh none db).2 = db := by
          simp only [flutterwave_webhook]
          rw [if_neg (by simp [hsig])]
        rw [h1]
        exact h1
      | some ev =>
        cases hlk : findTxnByExternal db ev.reference with
        | none =>
          have h1 : (flutterwave_webhook sig wh (some ev) db).2 = db := by
            simp only [flutterwave_webhook]
            rw [if_neg (by simp [hsig])]
            simp [hlk]
          rw [h1]
          exact h1
        | some t =>
          cases hS : ev.status == some "successful" with
          | true =>
            have h1 : (flutterwave_webhook sig wh (some ev) db).2 = db := by
              simp only [flutterwave_webhook]
              rw [if_neg (by simp [hsig])]
              simp [hlk, hS]
            rw [h1]
            exact h1
          | false =>
            cases hF : ev.status == some "failed" with
            | false =>
              have h1 : (flutterwave_webhook sig wh (some ev) db).2 = db := by
                simp only [flutterwave_webhook]
                rw [if_neg (by simp [hsig])]
                simp [hlk, hS, hF]
              rw [h1]
              exact h1
            | true =>
              have h1 : (flutterwave_webhook sig wh (some ev) db).2 =
                  setTransactionStatus db t.external_reference .failed false := by
                simp only [flutterwave_webhook]
                rw [if_neg (by simp [hsig])]
                simp [hlk, hS, hF]
              have hmap := findTxnByExternal_set_map db t.external_reference .failed false
                ev.reference
              rw [hlk] at hmap
              simp only [Option.map_some'] at hmap
              rcases Option.map_eq_some'.mp hmap with ⟨t2, hlk2, hext⟩
              have h2 : (flutterwave_webhook sig wh (some ev)
                  (setTransactionStatus db t.external_reference .failed false)).2 =
                  setTransactionStatus
                    (setTransactionStatus db t.external_reference .failed false)
                    t2.external_reference .failed false := by
                simp only [flutterwave_webhook]
                rw [if_neg (by simp [hsig])]
                simp [hlk2, hS, hF]
              rw [h1, h2, hext]
              exact setTransactionStatus_idem db t.external_reference .failed
  · intro num db
    simp only [schedule_worker_payment]
    repeat' first
      | rfl
      | split

end WorkConnect
